import Mathlib

/-!
Verification model of the kv_engine item-paging / expiry core.

The repository ships the unit tests of the Item Pager, Expiry Pager,
PagingVisitor and ItemEviction components; the component implementations
themselves are not part of the source tree.  The definitions below are a
shallow embedding of those components, modelled from the specification
(spec.md sections 3, 4.1-4.5) and pinned, where the tests assert concrete
behaviour, by the assertions of the shipped test file
(ep_engine item pager tests: STItemPagerTest and friends).
-/

namespace KV

/-- State of a vBucket (spec section 3: active / replica / pending / dead). -/
inductive vbucket_state where
  | active | replica | pending | dead
deriving DecidableEq, Repr, BEq

/-- Phase of the item pager (spec section 3 and the phaseWhenPolicyChange test). -/
inductive item_pager_phase where
  | PAGING_UNREFERENCED | REPLICA_ONLY | ACTIVE_AND_PENDING_ONLY
deriving DecidableEq, Repr, BEq

/-- Eviction policy (configuration key ht_eviction_policy). -/
inductive EvictionPolicy where
  | lru2Bit | hifi_mfu
deriving DecidableEq, Repr, BEq

/-- Which pager a PagingVisitor serves (ITEM_PAGER evicts and expires, EXPIRY_PAGER only expires). -/
inductive pager_type where
  | ITEM_PAGER | EXPIRY_PAGER
deriving DecidableEq, Repr, BEq

/-- Maximum value of the 2-bit NRU counter (MAX_NRU_VALUE in the source). -/
def MAX_NRU_VALUE : Nat := 3

/-- Initial value of the 2-bit NRU counter assigned to freshly stored items. -/
def INITIAL_NRU_VALUE : Nat := 2

/-- Modelled from the spec: a stored item (spec section 3 Item).  The value blob is
abstracted to its size and presence flags; xattrs are an association list, the
system-xattr subset being the keys that start with an underscore. -/
structure Item where
  key : Nat
  valueSize : Nat
  exptime : Nat
  freq : Nat
  age : Nat
  nru : Nat
  resident : Bool
  dirty : Bool
  pinned : Bool
  deleted : Bool
  compressed : Bool
  xattrs : List (String × String)
  hasBody : Bool
deriving DecidableEq, Repr

/-- Modelled from the spec: a vBucket is a state plus the items of its hash table. -/
structure VBucket where
  state : vbucket_state
  items : List Item
deriving DecidableEq, Repr

/-- Modelled from the spec: the aggregate expiry / ejection statistics of a bucket. -/
structure EPStats where
  expired_pager : Nat
  expired_access : Nat
  expired_compactor : Nat
  numValueEjects : Nat
deriving DecidableEq, Repr

/-- The all-zero statistics record. -/
def EPStats.zero : EPStats := ⟨0, 0, 0, 0⟩

/-- Add the ejection and expiry counts of one pager visit to the bucket statistics. -/
def EPStats.addPagerCounts (s : EPStats) (ej ex : Nat) : EPStats :=
  { s with numValueEjects := s.numValueEjects + ej,
           expired_pager := s.expired_pager + ex }

/-- Modelled from the spec: a bucket is a list of vBuckets plus aggregate statistics. -/
structure Bucket where
  vbuckets : List VBucket
  stats : EPStats
deriving DecidableEq, Repr

/-- Modelled from the spec: bucket-level configuration (bucket type, full policy,
eviction policy, watermarks, threshold percentiles). -/
structure BucketCfg where
  ephemeral : Bool
  failNewData : Bool
  policy : EvictionPolicy
  mem_low_wat : Nat
  mem_high_wat : Nat
  itemEvictionAgePercentage : Nat
  itemEvictionFreqPercentage : Nat
deriving DecidableEq, Repr

/-- Fixed per-item metadata overhead used by the memory model. -/
def metadataSize : Nat := 56

/-- Memory cost of one item: metadata plus the value blob while it is resident;
a deleted item's storage has been freed. -/
def Item.cost (it : Item) : Nat :=
  if it.deleted then 0 else metadataSize + (if it.resident then it.valueSize else 0)

/-- Total memory cost of a list of items. -/
def memUsedItems : List Item → Nat
  | [] => 0
  | it :: rest => it.cost + memUsedItems rest

/-- Memory used by one vBucket. -/
def VBucket.memUsed (vb : VBucket) : Nat := memUsedItems vb.items

/-- Memory used by a list of vBuckets. -/
def memUsedList : List VBucket → Nat
  | [] => 0
  | vb :: rest => vb.memUsed + memUsedList rest

/-- Estimated total memory used by the bucket (getEstimatedTotalMemoryUsed). -/
def Bucket.memUsed (b : Bucket) : Nat := memUsedList b.vbuckets

/-- Number of live (non-deleted) items of a vBucket (VBucket::getNumItems). -/
def VBucket.getNumItems (vb : VBucket) : Nat :=
  vb.items.countP (fun it => !it.deleted)

/-- Number of live non-resident items of a vBucket (VBucket::getNumNonResidentItems). -/
def VBucket.getNumNonResidentItems (vb : VBucket) : Nat :=
  vb.items.countP (fun it => !it.deleted && !it.resident)

/-- Number of live resident items of a vBucket. -/
def VBucket.numResidentItems (vb : VBucket) : Nat :=
  vb.items.countP (fun it => !it.deleted && it.resident)

/-- Total live item count over a list of vBuckets. -/
def numItemsList : List VBucket → Nat
  | [] => 0
  | vb :: rest => vb.getNumItems + numItemsList rest

/-- Total live item count of a bucket. -/
def Bucket.numItemsTotal (b : Bucket) : Nat := numItemsList b.vbuckets

/-- Total resident item count over a list of vBuckets. -/
def numResidentList : List VBucket → Nat
  | [] => 0
  | vb :: rest => vb.numResidentItems + numResidentList rest

/-- Total live resident item count of a bucket. -/
def Bucket.numResidentTotal (b : Bucket) : Nat := numResidentList b.vbuckets

/-! ## ItemEviction histogram -/

/-- Insert a value into an ascending sorted list. -/
def insort (x : Nat) : List Nat → List Nat
  | [] => [x]
  | y :: ys => if x ≤ y then x :: y :: ys else y :: insort x ys

/-- Sort a list of naturals ascending by repeated insertion. -/
def sortNat (l : List Nat) : List Nat := l.foldr insort []

/-- Modelled from the spec: the value at a percentile of a population
(spec section 4.1, missing ItemEviction implementation): the smallest value
such that at least pct percent of the population lies at or below it; an empty
population yields the minimum representable value. -/
def valueAtPercentile (l : List Nat) (pct : Nat) : Nat :=
  if l.isEmpty then 0
  else (sortNat l).getD (max 1 ((min pct 100 * l.length + 99) / 100) - 1) 0

/-- Modelled from the spec: the ItemEviction frequency / age histogram
(spec section 4.1, missing item_eviction.cc): a multiset of the frequency
counter values and ages of the items visited in the current pass. -/
structure ItemEviction where
  freqHist : List Nat
  ageHist : List Nat
deriving DecidableEq, Repr

/-- The empty histogram. -/
def ItemEviction.empty : ItemEviction := ⟨[], []⟩

/-- Clear the histogram (ItemEviction::reset). -/
def ItemEviction.reset (_ : ItemEviction) : ItemEviction := ItemEviction.empty

/-- Insert one (frequency, age) observation (ItemEviction::addFreqAndAgeToHistograms). -/
def ItemEviction.addFreqAndAge (ie : ItemEviction) (f a : Nat) : ItemEviction :=
  ⟨f :: ie.freqHist, a :: ie.ageHist⟩

/-- Insert a batch of (frequency, age) observations. -/
def ItemEviction.addEntries (ie : ItemEviction) (es : List (Nat × Nat)) : ItemEviction :=
  es.foldl (fun acc e => acc.addFreqAndAge e.1 e.2) ie

/-- Modelled from the spec: ItemEviction::getThresholds returns the frequency
value at the frequency percentile and the age value at the age percentile. -/
def ItemEviction.getThresholds (ie : ItemEviction) (freqPct agePct : Nat) : Nat × Nat :=
  (valueAtPercentile ie.freqHist freqPct, valueAtPercentile ie.ageHist agePct)

/-- Initial frequency counter value given to freshly stored items
(ItemEviction::initialFreqCount). -/
def ItemEviction.initialFreqCount : Nat := 4

/-! ## PagingVisitor -/

/-- Has the item's TTL elapsed (exptime of zero means no TTL)? -/
def isExpired (now : Nat) (it : Item) : Bool :=
  (it.exptime != 0) && decide (it.exptime ≤ now)

/-- Is the first character of the xattr key an underscore (system xattr)? -/
def isSystemXattr (k : String) : Bool :=
  match k.data with
  | [] => false
  | c :: _ => c = '_'

/-- Modelled from the spec: does a vBucket state match the pager phase filter
(spec sections 3 and 4.3)?  Replicas match only the REPLICA_ONLY phase and only
on persistent buckets; the other phases match active and pending vBuckets. -/
def phaseMatches : item_pager_phase → vbucket_state → Bool → Bool
  | .REPLICA_ONLY, .replica, eph => !eph
  | .ACTIVE_AND_PENDING_ONLY, .active, _ => true
  | .ACTIVE_AND_PENDING_ONLY, .pending, _ => true
  | .PAGING_UNREFERENCED, .active, _ => true
  | .PAGING_UNREFERENCED, .pending, _ => true
  | _, _, _ => false

/-- Modelled from the spec: per-item eviction eligibility (spec section 4.2 step 1):
resident, not pinned by a checkpoint, not dirty-pending-flush on a persistent
bucket, and the vBucket state matches the phase filter. -/
def isEligibleForEviction (eph : Bool) (ph : item_pager_phase)
    (st : vbucket_state) (it : Item) : Bool :=
  it.resident && !it.pinned && (eph || !it.dirty) && phaseMatches ph st eph

/-- Modelled from the spec: expiring an item deletes it, pruning the body and the
user xattrs while retaining the system xattrs as a tombstone (spec section 4.2
step 2); a compressed value is decompressed while the xattrs are pruned. -/
def expireStoredValue (it : Item) : Item :=
  { it with deleted := true, hasBody := false, compressed := false,
            xattrs := it.xattrs.filter (fun p => isSystemXattr p.1) }

/-- Modelled from the spec: paging an item out (spec section 4.2 step 4): a
persistent bucket drops the value blob and keeps the metadata; an ephemeral
bucket deletes the item outright. -/
def ejectStoredValue (eph : Bool) (it : Item) : Item :=
  if eph then { it with deleted := true, hasBody := false }
  else { it with resident := false }

/-- The immutable per-visit configuration snapshot handed to a PagingVisitor. -/
structure VisitorCfg where
  policy : EvictionPolicy
  ephemeral : Bool
  pagerType : pager_type
  phase : item_pager_phase
  freqCounterThreshold : Nat
  ageThreshold : Nat
deriving DecidableEq, Repr

/-- Result of visiting a single stored value. -/
structure VisitOutcome where
  item : Item
  ejected : Bool
  expired : Bool
  histEntry : Option (Nat × Nat)
deriving DecidableEq, Repr

/-- The outcome that leaves the item untouched. -/
def skipOutcome (it : Item) : VisitOutcome := ⟨it, false, false, none⟩

/-- Modelled from the spec: the per-item decision of PagingVisitor::visit
(spec section 4.2, missing paging implementation).  Deleted items are skipped;
the expiry check precedes the eviction check; the EXPIRY_PAGER only expires;
an ineligible item is skipped silently without touching its frequency counter;
under 2-bit LRU an eligible item is ejected iff its NRU counter is at the
maximum; under hifi_mfu the (freq, age) pair of every eligible item is added to
the histogram, the item is ejected iff freq is at most the frequency threshold
and either its age reaches the age threshold or freq is below
initialFreqCount, and otherwise its frequency counter decays by one. -/
def visitStoredValue (c : VisitorCfg) (st : vbucket_state) (now : Nat)
    (it : Item) : VisitOutcome :=
  if it.deleted then skipOutcome it
  else if isExpired now it then ⟨expireStoredValue it, false, true, none⟩
  else if c.pagerType = .EXPIRY_PAGER then skipOutcome it
  else if isEligibleForEviction c.ephemeral c.phase st it then
    match c.policy with
    | .lru2Bit =>
        if it.nru = MAX_NRU_VALUE then ⟨ejectStoredValue c.ephemeral it, true, false, none⟩
        else skipOutcome it
    | .hifi_mfu =>
        if it.freq ≤ c.freqCounterThreshold ∧
            (c.ageThreshold ≤ it.age ∨ it.freq < ItemEviction.initialFreqCount) then
          ⟨ejectStoredValue c.ephemeral it, true, false, some (it.freq, it.age)⟩
        else
          ⟨{ it with freq := it.freq - 1 }, false, false, some (it.freq, it.age)⟩
  else skipOutcome it

/-- Accumulated result of one pass over the items of a vBucket. -/
structure VisitListResult where
  items : List Item
  numEjected : Nat
  numExpired : Nat
  histEntries : List (Nat × Nat)
deriving DecidableEq, Repr

/-- Apply visitStoredValue to every item of a hash-table in order, accumulating
the new items, the ejection and expiry counts, and the histogram entries. -/
def visitList (c : VisitorCfg) (st : vbucket_state) (now : Nat) :
    List Item → VisitListResult
  | [] => ⟨[], 0, 0, []⟩
  | it :: rest =>
    let o := visitStoredValue c st now it
    let r := visitList c st now rest
    ⟨o.item :: r.items,
     (if o.ejected then 1 else 0) + r.numEjected,
     (if o.expired then 1 else 0) + r.numExpired,
     o.histEntry.toList ++ r.histEntries⟩

/-- A stateful PagingVisitor as used directly by the unit tests: a configuration
snapshot plus the accumulated histogram and ejection / expiry counters. -/
structure PagingVisitor where
  cfg : VisitorCfg
  itemEviction : ItemEviction
  ejected : Nat
  expired : Nat
deriving DecidableEq, Repr

/-- Set the frequency counter threshold (MockPagingVisitor::setFreqCounterThreshold). -/
def PagingVisitor.setFreqCounterThreshold (pv : PagingVisitor) (t : Nat) : PagingVisitor :=
  { pv with cfg := { pv.cfg with freqCounterThreshold := t } }

/-- Clear the visitor's histogram (getItemEviction().reset()). -/
def PagingVisitor.resetHistogram (pv : PagingVisitor) : PagingVisitor :=
  { pv with itemEviction := ItemEviction.empty }

/-- One pass of the visitor over the items of a vBucket (ht.visit(pv)): updates
the accumulated counters and histogram and returns the new items. -/
def PagingVisitor.visitItems (pv : PagingVisitor) (st : vbucket_state) (now : Nat)
    (items : List Item) : PagingVisitor × List Item :=
  let r := visitList pv.cfg st now items
  ({ pv with itemEviction := pv.itemEviction.addEntries r.histEntries,
             ejected := pv.ejected + r.numEjected,
             expired := pv.expired + r.numExpired },
   r.items)

/-! ## ItemPager and ExpiryPager -/

/-- Modelled from the spec: the starting pager phase for an eviction algorithm
(spec section 4.3 SCHEDULING), pinned by the assertions of the
phaseWhenPolicyChange test: 2-bit LRU starts at PAGING_UNREFERENCED for every
bucket type; hifi_mfu starts at REPLICA_ONLY on persistent buckets and at
ACTIVE_AND_PENDING_ONLY on ephemeral buckets. -/
def initialPhase (policy : EvictionPolicy) (eph : Bool) : item_pager_phase :=
  match policy with
  | .lru2Bit => .PAGING_UNREFERENCED
  | .hifi_mfu => if eph then .ACTIVE_AND_PENDING_ONLY else .REPLICA_ONLY

/-- Modelled from the spec: the phase-ordered waves of one item pager run
(spec sections 3 and 4.3): persistent hifi_mfu visits replicas before actives
and pendings; persistent 2-bit LRU has an extra unreferenced-only initial
phase; ephemeral buckets only ever visit active and pending vBuckets. -/
def phaseSequence (policy : EvictionPolicy) (eph : Bool) : List item_pager_phase :=
  if eph then [.ACTIVE_AND_PENDING_ONLY]
  else match policy with
  | .lru2Bit => [.PAGING_UNREFERENCED, .REPLICA_ONLY, .ACTIVE_AND_PENDING_ONLY]
  | .hifi_mfu => [.REPLICA_ONLY, .ACTIVE_AND_PENDING_ONLY]

/-- The visitor configuration an item pager run hands to the per-vBucket visit:
thresholds are learned from the histogram of the eligible population of the
vBucket (spec section 4.2 threshold learning, two-pass form). -/
def pagerVcfg (cfg : BucketCfg) (ph : item_pager_phase) (now : Nat)
    (vb : VBucket) : VisitorCfg :=
  { policy := cfg.policy, ephemeral := cfg.ephemeral, pagerType := .ITEM_PAGER,
    phase := ph,
    freqCounterThreshold :=
      valueAtPercentile
        ((vb.items.filter (fun it =>
            !it.deleted && !isExpired now it &&
            isEligibleForEviction cfg.ephemeral ph vb.state it)).map
          (fun it => it.freq))
        cfg.itemEvictionFreqPercentage,
    ageThreshold :=
      valueAtPercentile
        ((vb.items.filter (fun it =>
            !it.deleted && !isExpired now it &&
            isEligibleForEviction cfg.ephemeral ph vb.state it)).map
          (fun it => it.age))
        cfg.itemEvictionAgePercentage }

/-- One item pager visit of a single vBucket: learn the thresholds, then apply
the paging visitor to every item; returns the new vBucket and the ejection and
expiry counts. -/
def pagerVisitVB (cfg : BucketCfg) (ph : item_pager_phase) (now : Nat)
    (vb : VBucket) : VBucket × Nat × Nat :=
  let r := visitList (pagerVcfg cfg ph now vb) vb.state now vb.items
  (⟨vb.state, r.items⟩, r.numEjected, r.numExpired)

/-- Modelled from the spec: one wave of the item pager (spec section 4.3
DISPATCH / AWAITING): walk the vBuckets in order, and before each visit stop
the run as soon as the estimated memory used has fallen below the low
watermark; vBuckets whose state does not match the phase filter are skipped.
The first argument accumulates the memory used by the already-processed
vBuckets so the stop check sees the whole bucket's memory. -/
def runWave (cfg : BucketCfg) (ph : item_pager_phase) (now : Nat) :
    Nat → EPStats → List VBucket → List VBucket × EPStats
  | _, stats, [] => ([], stats)
  | memDone, stats, vb :: rest =>
    if memDone + memUsedList (vb :: rest) < cfg.mem_low_wat then (vb :: rest, stats)
    else if phaseMatches ph vb.state cfg.ephemeral then
      let v := pagerVisitVB cfg ph now vb
      let r := runWave cfg ph now (memDone + v.1.memUsed)
                 (stats.addPagerCounts v.2.1 v.2.2) rest
      (v.1 :: r.1, r.2)
    else
      let r := runWave cfg ph now (memDone + vb.memUsed) stats rest
      (vb :: r.1, r.2)

/-- Page out items across all phases of one item pager run (spec section 4.3
RE_EVALUATE: after a wave, advance the phase and redispatch until the phases
are exhausted; the per-vBucket stop check ends the run early once below the
low watermark). -/
def itemPagerPageOut (cfg : BucketCfg) (now : Nat) (b : Bucket) : Bucket :=
  (phaseSequence cfg.policy cfg.ephemeral).foldl
    (fun b ph =>
      let r := runWave cfg ph now 0 b.stats b.vbuckets
      ⟨r.1, r.2⟩) b

/-- Modelled from the spec: one complete ItemPager run (spec section 4.3): a
run woken below the high watermark does nothing, otherwise it pages out items
wave by wave. -/
def itemPagerRun (cfg : BucketCfg) (now : Nat) (b : Bucket) : Bucket :=
  if cfg.mem_high_wat < b.memUsed then itemPagerPageOut cfg now b else b

/-- The visitor configuration of an expiry pager visit (expiry-only sweep). -/
def expiryVcfg (cfg : BucketCfg) : VisitorCfg :=
  { policy := cfg.policy, ephemeral := cfg.ephemeral, pagerType := .EXPIRY_PAGER,
    phase := .ACTIVE_AND_PENDING_ONLY, freqCounterThreshold := 0, ageThreshold := 0 }

/-- One expiry pager visit of a single vBucket. -/
def expiryVisitVB (cfg : BucketCfg) (now : Nat) (vb : VBucket) : VBucket × Nat :=
  let r := visitList (expiryVcfg cfg) vb.state now vb.items
  (⟨vb.state, r.items⟩, r.numExpired)

/-- Sweep every online (non-dead) vBucket with the expiry visitor. -/
def expiryWave (cfg : BucketCfg) (now : Nat) :
    EPStats → List VBucket → List VBucket × EPStats
  | stats, [] => ([], stats)
  | stats, vb :: rest =>
    if vb.state = .dead then
      let r := expiryWave cfg now stats rest
      (vb :: r.1, r.2)
    else
      let v := expiryVisitVB cfg now vb
      let r := expiryWave cfg now (stats.addPagerCounts 0 v.2) rest
      (v.1 :: r.1, r.2)

/-- Modelled from the spec: one complete ExpiryPager run (spec section 4.4):
an expiry-only sweep of every online vBucket, not bounded by the watermarks. -/
def expiryPagerRun (cfg : BucketCfg) (now : Nat) (b : Bucket) : Bucket :=
  let r := expiryWave cfg now b.stats b.vbuckets
  ⟨r.1, r.2⟩

/-- Modelled from the spec: the pager scheduled when the high watermark is
crossed (spec section 4.4): the ItemPager, except for ephemeral fail_new_data
buckets, which have no item pager and schedule the expiry pager instead. -/
def runHighMemoryPager (cfg : BucketCfg) (now : Nat) (b : Bucket) : Bucket :=
  if cfg.ephemeral && cfg.failNewData then expiryPagerRun cfg now b
  else itemPagerRun cfg now b

/-- Modelled from the spec: the ItemPager task state: its current phase and the
eviction policy it was last configured with (spec section 4.3). -/
structure ItemPager where
  phase : item_pager_phase
  lastPolicy : EvictionPolicy
deriving DecidableEq, Repr

/-- Construct an ItemPager for a bucket configuration (ItemPager constructor). -/
def ItemPager.create (policy : EvictionPolicy) (eph : Bool) : ItemPager :=
  ⟨initialPhase policy eph, policy⟩

/-- Modelled from the spec: ItemPager::run (spec section 4.3 policy change
handling, pinned by the phaseWhenPolicyChange test): if the configured
eviction policy changed since the last run, the phase is re-initialised to the
starting value of the new policy before paging; then the bucket is paged. -/
def ItemPager.run (p : ItemPager) (cfg : BucketCfg) (now : Nat) (b : Bucket) :
    ItemPager × Bucket :=
  let p' := if cfg.policy = p.lastPolicy then p
            else ⟨initialPhase cfg.policy cfg.ephemeral, cfg.policy⟩
  (p', itemPagerRun cfg now b)

/-! ## Test-fixture scenarios -/

/-- The xattr key of the user xattr segment used by the expiry tests. -/
def userKey : String := "user"

/-- The xattr key of the meta xattr segment used by the expiry tests. -/
def metaKey : String := "meta"

/-- The xattr key of the system xattr segment used by the expiry tests. -/
def syncKey : String := "_sync"

/-- Placeholder value of the user xattr segment. -/
def userVal : String := "userdata"

/-- Placeholder value of the meta xattr segment. -/
def metaVal : String := "metadata"

/-- The value the tests store under the _sync system xattr. -/
def syncCasValue : String := "\x7b\"cas\":\"0xdeadbeefcafefeed\"\x7d"

/-- The bucket configuration of the quota test fixture (STBucketQuotaTest):
max_size 200 KiB, mem_low_wat 120 KiB, mem_high_wat 160 KiB. -/
def quotaCfg (policy : EvictionPolicy) (eph fnd : Bool) : BucketCfg :=
  { ephemeral := eph, failNewData := fnd, policy := policy,
    mem_low_wat := 120 * 1024, mem_high_wat := 160 * 1024,
    itemEvictionAgePercentage := 30, itemEvictionFreqPercentage := 10 }

/-- The bucket quota of the test fixture (max_size, 200 KiB). -/
def quotaMaxSize : Nat := 200 * 1024

/-- An item as stored by populateUntilTmpFail: a 512 B class value, no TTL,
NRU at the maximum and frequency counter zero, resident, clean, unpinned. -/
def evictableItem (sz : Nat) : Item :=
  { key := 0, valueSize := sz, exptime := 0, freq := 0, age := 0,
    nru := MAX_NRU_VALUE, resident := true, dirty := false, pinned := false,
    deleted := false, compressed := false, xattrs := [], hasBody := true }

/-- An item stored through the normal write path: initial NRU and initial
frequency counter, resident, clean, no TTL. -/
def plainItem (sz : Nat) : Item :=
  { key := 0, valueSize := sz, exptime := 0, freq := ItemEviction.initialFreqCount,
    age := 0, nru := INITIAL_NRU_VALUE, resident := true, dirty := false,
    pinned := false, deleted := false, compressed := false, xattrs := [],
    hasBody := true }

/-- An evictable item carrying a TTL. -/
def ttlItem (sz e : Nat) : Item :=
  { evictableItem sz with exptime := e }

/-- The ServerQuotaReached bucket: one active vBucket populated with n
pager-candidate 512 B documents. -/
def quotaBucket (n : Nat) : Bucket :=
  ⟨[⟨.active, List.replicate n (evictableItem 512)⟩], EPStats.zero⟩

/-- The ExpiredItemsDeletedFirst bucket: one active vBucket holding a
non-expiring documents followed by b documents with a 1 s TTL. -/
def expiredFirstBucket (a b : Nat) : Bucket :=
  ⟨[⟨.active, List.replicate a (plainItem 512) ++ List.replicate b (ttlItem 512 1)⟩],
   EPStats.zero⟩

/-- The ReplicaItemsVisitedFirst bucket: ten 512 B documents in the active and
pending vBuckets and m pager-candidate documents in the replica vBucket. -/
def replicaFirstBucket (m : Nat) : Bucket :=
  ⟨[⟨.active, List.replicate 10 (plainItem 512)⟩,
    ⟨.pending, List.replicate 10 (plainItem 512)⟩,
    ⟨.replica, List.replicate m (evictableItem 512)⟩], EPStats.zero⟩

/-- The repeatedly-accessed document of the isEligible test: stored with
frequency zero and then read ten times, bumping its frequency counter to 10. -/
def accessedItem : Item := { evictableItem 512 with key := 99, freq := 10 }

/-- The vBucket contents of the isEligible test: a population of untouched
frequency-zero documents plus the one repeatedly-accessed document. -/
def isEligibleItems : List Item :=
  List.replicate 50 (evictableItem 512) ++ [accessedItem]

/-- The visitor of the isEligible / decayByOne tests: hifi_mfu, persistent,
ITEM_PAGER, ACTIVE_AND_PENDING_ONLY, both thresholds zero. -/
def mkTestVisitor : PagingVisitor :=
  ⟨⟨.hifi_mfu, false, .ITEM_PAGER, .ACTIVE_AND_PENDING_ONLY, 0, 0⟩,
   ItemEviction.empty, 0, 0⟩

/-- The visitor state after the isEligible test's single pass over the vBucket. -/
def isEligibleAfterVisit : PagingVisitor :=
  (mkTestVisitor.visitItems .active 0 isEligibleItems).1

/-- The single document of the decayByOne test: active, eligible, frequency
counter at initialFreqCount. -/
def decayItem : Item :=
  { key := 0, valueSize := 512, exptime := 0, freq := ItemEviction.initialFreqCount,
    age := 0, nru := INITIAL_NRU_VALUE, resident := true, dirty := false,
    pinned := false, deleted := false, compressed := false, xattrs := [],
    hasBody := true }

/-- The decayByOne loop: k passes of the visitor over the single document, each
pass first setting the frequency counter threshold to zero. -/
def decayState : Nat → PagingVisitor × List Item
  | 0 => (mkTestVisitor, [decayItem])
  | n + 1 =>
    let s := decayState n
    (s.1.setFreqCounterThreshold 0).visitItems .active 0 s.2

/-- The single document of the doNotDecayIfCannotEvict test: frequency counter
at initialFreqCount and (on the persistent variant) still dirty. -/
def hotPinnedItem : Item := { decayItem with dirty := true }

/-- The doNotDecayIfCannotEvict loop: k passes of the visitor over the single
document while its vBucket is in replica state, each pass resetting the
histogram and the frequency counter threshold. -/
def noDecayState : Nat → PagingVisitor × List Item
  | 0 => (mkTestVisitor, [hotPinnedItem])
  | n + 1 =>
    let s := noDecayState n
    ((s.1.resetHistogram).setFreqCounterThreshold 0).visitItems .replica 0 s.2

/-- The final pass of the doNotDecayIfCannotEvict test: the vBucket is flipped
back to active and the document flushed (clean), then the visitor runs once
more with threshold zero after a histogram reset. -/
def noDecayAfterEligible : PagingVisitor × List Item :=
  let s := noDecayState (ItemEviction.initialFreqCount + 1)
  ((s.1.resetHistogram).setFreqCounterThreshold 0).visitItems .active 0
    (s.2.map (fun it => { it with dirty := false }))

/-- The compressed, evicted, TTL-carrying xattr document of the MB-32669 test. -/
def compressedXattrItem : Item :=
  { key := 0, valueSize := 100, exptime := 5, freq := ItemEviction.initialFreqCount,
    age := 0, nru := INITIAL_NRU_VALUE, resident := false, dirty := false,
    pinned := false, deleted := false, compressed := true,
    xattrs := [(userKey, userVal), (metaKey, metaVal), (syncKey, syncCasValue)],
    hasBody := true }

/-- The MB-32669 bucket: one active vBucket holding the compressed evicted
xattr document. -/
def mb32669Bucket : Bucket := ⟨[⟨.active, [compressedXattrItem]⟩], EPStats.zero⟩

/-- The MB-32669 bucket after the expiry pager runs at time 11 (past the TTL). -/
def mb32669After : Bucket :=
  expiryPagerRun (quotaCfg .hifi_mfu false false) 11 mb32669Bucket

/-- One of the three xattr documents of the expiredItemsDeleted scenario:
key k with expiry time e (zero meaning no TTL). -/
def xattrDoc (k e : Nat) : Item :=
  { key := k, valueSize := 100, exptime := e, freq := ItemEviction.initialFreqCount,
    age := 0, nru := INITIAL_NRU_VALUE, resident := true, dirty := false,
    pinned := false, deleted := false, compressed := false,
    xattrs := [(userKey, userVal), (metaKey, metaVal), (syncKey, syncCasValue)],
    hasBody := true }

/-- The expiredItemsDeleted bucket: key 0 without TTL, key 1 expiring at 10,
key 2 expiring at 20. -/
def mb25650Bucket : Bucket :=
  ⟨[⟨.active, [xattrDoc 0 0, xattrDoc 1 10, xattrDoc 2 20]⟩], EPStats.zero⟩

/-- The expiredItemsDeleted bucket after the expiry pager runs at time 11:
key 1 has been expired. -/
def mb25650AfterFirst : Bucket :=
  expiryPagerRun (quotaCfg .hifi_mfu false false) 11 mb25650Bucket

/-- Bring the metadata of a document back into the hash table via getMetaData
plus a background fetch: the stored value for the key becomes resident again. -/
def bgFetchMeta (b : Bucket) (k : Nat) : Bucket :=
  ⟨b.vbuckets.map (fun vb =>
      ⟨vb.state, vb.items.map (fun it =>
          if it.key = k then { it with resident := true } else it)⟩),
   b.stats⟩

/-- The MB-25650 state: the expired document's metadata fetched back into memory. -/
def mb25650Refetched : Bucket := bgFetchMeta mb25650AfterFirst 1

/-- The MB-25650 state after the expiry pager runs a second time at time 11. -/
def mb25650AfterSecond : Bucket :=
  expiryPagerRun (quotaCfg .hifi_mfu false false) 11 mb25650Refetched

/-- Look up a stored value by key in the first vBucket of a bucket. -/
def Bucket.findItem (b : Bucket) (k : Nat) : Option Item :=
  match b.vbuckets with
  | [] => none
  | vb :: _ => vb.items.find? (fun it => it.key == k)

/-- The empty bucket. -/
def emptyBucket : Bucket := ⟨[], EPStats.zero⟩

/-! ### Histogram lemmas -/

theorem mem_insort {a x : Nat} : ∀ {l : List Nat}, a ∈ insort x l → a = x ∨ a ∈ l := by
  intro l
  induction l with
  | nil => intro h; simp [insort] at h; exact Or.inl h
  | cons y ys ih =>
    intro h
    simp only [insort] at h
    by_cases hxy : x ≤ y
    · rw [if_pos hxy] at h
      rcases List.mem_cons.mp h with h | h
      · exact Or.inl h
      · exact Or.inr h
    · rw [if_neg hxy] at h
      rcases List.mem_cons.mp h with h | h
      · exact Or.inr (List.mem_cons.mpr (Or.inl h))
      · rcases ih h with h | h
        · exact Or.inl h
        · exact Or.inr (List.mem_cons.mpr (Or.inr h))

theorem length_insort (x : Nat) : ∀ (l : List Nat), (insort x l).length = l.length + 1 := by
  intro l
  induction l with
  | nil => simp [insort]
  | cons y ys ih =>
    simp only [insort]
    by_cases hxy : x ≤ y
    · rw [if_pos hxy]; simp
    · rw [if_neg hxy]; simp [ih]

theorem mem_sortNat {a : Nat} : ∀ {l : List Nat}, a ∈ sortNat l → a ∈ l := by
  intro l
  induction l with
  | nil => intro h; simp [sortNat] at h
  | cons y ys ih =>
    intro h
    have h' : a ∈ insort y (sortNat ys) := h
    rcases mem_insort h' with h'' | h''
    · exact List.mem_cons.mpr (Or.inl h'')
    · exact List.mem_cons.mpr (Or.inr (ih h''))

theorem length_sortNat : ∀ (l : List Nat), (sortNat l).length = l.length := by
  intro l
  induction l with
  | nil => rfl
  | cons y ys ih =>
    show (insort y (sortNat ys)).length = ys.length + 1
    rw [length_insort, ih]

theorem getD_mem_of_lt {l : List Nat} {i : Nat} (h : i < l.length) : l.getD i 0 ∈ l := by
  induction l generalizing i with
  | nil => simp at h
  | cons y ys ih =>
    cases i with
    | zero => simp [List.getD]
    | succ j =>
      have hj : j < ys.length := by simpa using h
      simpa [List.getD] using Or.inr (ih hj)

/-- The percentile of a non-empty population is always one of its values. -/
theorem valueAtPercentile_mem {l : List Nat} (h : l ≠ []) (pct : Nat) :
    valueAtPercentile l pct ∈ l := by
  have he : l.isEmpty = false := by
    cases l with
    | nil => exact absurd rfl h
    | cons a as => rfl
  unfold valueAtPercentile
  rw [he]
  simp only [Bool.false_eq_true, if_false]
  apply mem_sortNat
  apply getD_mem_of_lt
  rw [length_sortNat]
  have hlen : 1 ≤ l.length := by
    cases l with
    | nil => exact absurd rfl h
    | cons a as => simp
  have hup : (min pct 100 * l.length + 99) / 100 ≤ l.length := by
    have h1 : min pct 100 * l.length + 99 ≤ 100 * l.length + 99 := by
      have := Nat.mul_le_mul_right l.length (Nat.min_le_right pct 100)
      omega
    have h2 : (100 * l.length + 99) / 100 = l.length := by
      omega
    calc (min pct 100 * l.length + 99) / 100
        ≤ (100 * l.length + 99) / 100 := Nat.div_le_div_right h1
      _ = l.length := h2
  omega

/-- If every value of the population is zero, every percentile is zero. -/
theorem valueAtPercentile_all_zero {l : List Nat} (h : ∀ x ∈ l, x = 0) (pct : Nat) :
    valueAtPercentile l pct = 0 := by
  cases l with
  | nil => rfl
  | cons a as =>
    exact h _ (valueAtPercentile_mem (by simp) pct)

/-! ### Counting and memory lemmas -/

theorem countP_replicate {α : Type} (p : α → Bool) (a : α) (n : Nat) :
    (List.replicate n a).countP p = if p a then n else 0 := by
  induction n with
  | zero => simp
  | succ k ih =>
    rw [List.replicate_succ, List.countP_cons, ih]
    by_cases hpa : p a = true
    · simp [hpa]
    · simp [hpa]

theorem memUsedItems_replicate (it : Item) (n : Nat) :
    memUsedItems (List.replicate n it) = n * it.cost := by
  induction n with
  | zero => simp [memUsedItems]
  | succ k ih =>
    rw [List.replicate_succ]
    show it.cost + memUsedItems (List.replicate k it) = (k + 1) * it.cost
    rw [ih, Nat.succ_mul]
    omega

theorem memUsedItems_append (l₁ l₂ : List Item) :
    memUsedItems (l₁ ++ l₂) = memUsedItems l₁ + memUsedItems l₂ := by
  induction l₁ with
  | nil => simp [memUsedItems]
  | cons it rest ih =>
    show it.cost + memUsedItems (rest ++ l₂) = it.cost + memUsedItems rest + memUsedItems l₂
    rw [ih]
    omega

theorem addPagerCounts_zero (s : EPStats) : s.addPagerCounts 0 0 = s := rfl

/-! ### Per-item visit lemmas -/

theorem visit_deleted {c : VisitorCfg} {st : vbucket_state} {now : Nat} {it : Item}
    (hd : it.deleted = true) : visitStoredValue c st now it = skipOutcome it := by
  simp [visitStoredValue, hd]

theorem visit_expire {c : VisitorCfg} {st : vbucket_state} {now : Nat} {it : Item}
    (hd : it.deleted = false) (hx : isExpired now it = true) :
    visitStoredValue c st now it = ⟨expireStoredValue it, false, true, none⟩ := by
  simp [visitStoredValue, hd, hx]

theorem visit_skip_of_ineligible {c : VisitorCfg} {st : vbucket_state} {now : Nat}
    {it : Item} (hd : it.deleted = false) (hx : isExpired now it = false)
    (he : isEligibleForEviction c.ephemeral c.phase st it = false) :
    visitStoredValue c st now it = skipOutcome it := by
  by_cases ht : c.pagerType = .EXPIRY_PAGER
  · simp [visitStoredValue, hd, hx, ht]
  · simp [visitStoredValue, hd, hx, ht, he]

theorem visit_skip_expiry_pager {c : VisitorCfg} {st : vbucket_state} {now : Nat}
    {it : Item} (hd : it.deleted = false) (hx : isExpired now it = false)
    (ht : c.pagerType = .EXPIRY_PAGER) :
    visitStoredValue c st now it = skipOutcome it := by
  simp [visitStoredValue, hd, hx, ht]

theorem visit_eject_hifi {c : VisitorCfg} {st : vbucket_state} {now : Nat} {it : Item}
    (hd : it.deleted = false) (hx : isExpired now it = false)
    (ht : c.pagerType = .ITEM_PAGER) (hp : c.policy = .hifi_mfu)
    (he : isEligibleForEviction c.ephemeral c.phase st it = true)
    (hf : it.freq = 0) :
    visitStoredValue c st now it =
      ⟨ejectStoredValue c.ephemeral it, true, false, some (it.freq, it.age)⟩ := by
  have ht' : ¬ c.pagerType = .EXPIRY_PAGER := by rw [ht]; intro h; cases h
  have hcond : it.freq ≤ c.freqCounterThreshold ∧
      (c.ageThreshold ≤ it.age ∨ it.freq < ItemEviction.initialFreqCount) := by
    constructor
    · rw [hf]; exact Nat.zero_le _
    · right; rw [hf]; decide
  simp [visitStoredValue, hd, hx, ht', he, hp, hcond]

theorem visit_eject_lru {c : VisitorCfg} {st : vbucket_state} {now : Nat} {it : Item}
    (hd : it.deleted = false) (hx : isExpired now it = false)
    (ht : c.pagerType = .ITEM_PAGER) (hp : c.policy = .lru2Bit)
    (he : isEligibleForEviction c.ephemeral c.phase st it = true)
    (hn : it.nru = MAX_NRU_VALUE) :
    visitStoredValue c st now it =
      ⟨ejectStoredValue c.ephemeral it, true, false, none⟩ := by
  have ht' : ¬ c.pagerType = .EXPIRY_PAGER := by rw [ht]; intro h; cases h
  simp [visitStoredValue, hd, hx, ht', he, hp, hn]

theorem visit_skip_lru_low_nru {c : VisitorCfg} {st : vbucket_state} {now : Nat}
    {it : Item} (hd : it.deleted = false) (hx : isExpired now it = false)
    (hp : c.policy = .lru2Bit) (hn : it.nru ≠ MAX_NRU_VALUE) :
    visitStoredValue c st now it = skipOutcome it := by
  by_cases ht : c.pagerType = .EXPIRY_PAGER
  · simp [visitStoredValue, hd, hx, ht]
  · by_cases he : isEligibleForEviction c.ephemeral c.phase st it = true
    · simp [visitStoredValue, hd, hx, ht, he, hp, hn]
    · simp [visitStoredValue, hd, hx, ht, he]

/-! ### Visit-list lemmas -/

theorem visitList_replicate (c : VisitorCfg) (st : vbucket_state) (now : Nat)
    (it : Item) (n : Nat) :
    (visitList c st now (List.replicate n it)).items
        = List.replicate n (visitStoredValue c st now it).item
    ∧ (visitList c st now (List.replicate n it)).numEjected
        = n * (if (visitStoredValue c st now it).ejected then 1 else 0)
    ∧ (visitList c st now (List.replicate n it)).numExpired
        = n * (if (visitStoredValue c st now it).expired then 1 else 0) := by
  induction n with
  | zero => refine ⟨rfl, ?_, ?_⟩ <;> simp [visitList]
  | succ k ih =>
    rw [List.replicate_succ]
    refine ⟨?_, ?_, ?_⟩
    · show (visitStoredValue c st now it).item ::
          (visitList c st now (List.replicate k it)).items = _
      rw [ih.1, List.replicate_succ]
    · show (if (visitStoredValue c st now it).ejected then 1 else 0) +
          (visitList c st now (List.replicate k it)).numEjected = _
      rw [ih.2.1, Nat.succ_mul]
      omega
    · show (if (visitStoredValue c st now it).expired then 1 else 0) +
          (visitList c st now (List.replicate k it)).numExpired = _
      rw [ih.2.2, Nat.succ_mul]
      omega

theorem visitList_append (c : VisitorCfg) (st : vbucket_state) (now : Nat)
    (l₁ l₂ : List Item) :
    (visitList c st now (l₁ ++ l₂)).items
        = (visitList c st now l₁).items ++ (visitList c st now l₂).items
    ∧ (visitList c st now (l₁ ++ l₂)).numEjected
        = (visitList c st now l₁).numEjected + (visitList c st now l₂).numEjected
    ∧ (visitList c st now (l₁ ++ l₂)).numExpired
        = (visitList c st now l₁).numExpired + (visitList c st now l₂).numExpired := by
  induction l₁ with
  | nil => refine ⟨rfl, ?_, ?_⟩ <;> simp [visitList]
  | cons it rest ih =>
    refine ⟨?_, ?_, ?_⟩
    · show (visitStoredValue c st now it).item ::
          (visitList c st now (rest ++ l₂)).items = _
      rw [ih.1]; rfl
    · show (if (visitStoredValue c st now it).ejected then 1 else 0) +
          (visitList c st now (rest ++ l₂)).numEjected = _
      rw [ih.2.1]
      show _ = (if (visitStoredValue c st now it).ejected then 1 else 0) +
          (visitList c st now rest).numEjected + (visitList c st now l₂).numEjected
      omega
    · show (if (visitStoredValue c st now it).expired then 1 else 0) +
          (visitList c st now (rest ++ l₂)).numExpired = _
      rw [ih.2.2]
      show _ = (if (visitStoredValue c st now it).expired then 1 else 0) +
          (visitList c st now rest).numExpired + (visitList c st now l₂).numExpired
      omega

theorem visitList_skip_all {c : VisitorCfg} {st : vbucket_state} {now : Nat}
    {l : List Item} (h : ∀ it ∈ l, visitStoredValue c st now it = skipOutcome it) :
    visitList c st now l = ⟨l, 0, 0, []⟩ := by
  induction l with
  | nil => rfl
  | cons it rest ih =>
    have hhd := h it (List.mem_cons.mpr (Or.inl rfl))
    have htl := ih (fun x hx => h x (List.mem_cons.mpr (Or.inr hx)))
    show (⟨(visitStoredValue c st now it).item :: (visitList c st now rest).items,
          (if (visitStoredValue c st now it).ejected then 1 else 0) +
            (visitList c st now rest).numEjected,
          (if (visitStoredValue c st now it).expired then 1 else 0) +
            (visitList c st now rest).numExpired,
          (visitStoredValue c st now it).histEntry.toList ++
            (visitList c st now rest).histEntries⟩ : VisitListResult) = _
    rw [hhd, htl]
    rfl

/-! ### Wave lemmas -/

theorem runWave_skip_all {cfg : BucketCfg} {ph : item_pager_phase} {now : Nat}
    {l : List VBucket}
    (h : ∀ vb ∈ l, phaseMatches ph vb.state cfg.ephemeral = false ∨
          pagerVisitVB cfg ph now vb = (vb, 0, 0)) :
    ∀ (d : Nat) (s : EPStats), runWave cfg ph now d s l = (l, s) := by
  induction l with
  | nil => intro d s; rfl
  | cons vb rest ih =>
    intro d s
    have hhd := h vb (List.mem_cons.mpr (Or.inl rfl))
    have htl := ih (fun x hx => h x (List.mem_cons.mpr (Or.inr hx)))
    rw [runWave]
    by_cases hmem : d + memUsedList (vb :: rest) < cfg.mem_low_wat
    · rw [if_pos hmem]
    · rw [if_neg hmem]
      rcases hhd with hph | hvisit
      · rw [hph]
        simp only [Bool.false_eq_true, if_false]
        rw [htl]
      · by_cases hph : phaseMatches ph vb.state cfg.ephemeral = true
        · rw [hph]
          simp only [if_true]
          rw [hvisit]
          simp only [addPagerCounts_zero]
          rw [htl]
        · simp only [hph, Bool.false_eq_true, if_false]
          rw [htl]

theorem runWave_preserves_replica {cfg : BucketCfg} {ph : item_pager_phase}
    {now : Nat} (hph : phaseMatches ph .replica cfg.ephemeral = false) :
    ∀ (l : List VBucket) (d : Nat) (s : EPStats),
      List.Forall₂ (fun v w => v.state = .replica → w = v) l (runWave cfg ph now d s l).1 := by
  intro l
  induction l with
  | nil => intro d s; exact List.Forall₂.nil
  | cons vb rest ih =>
    intro d s
    rw [runWave]
    by_cases hmem : d + memUsedList (vb :: rest) < cfg.mem_low_wat
    · rw [if_pos hmem]
      exact List.forall₂_same.mpr (fun x _ _ => rfl)
    · rw [if_neg hmem]
      by_cases hm : phaseMatches ph vb.state cfg.ephemeral = true
      · rw [hm]
        simp only [if_true]
        refine List.Forall₂.cons ?_ (ih _ _)
        intro hrep
        rw [hrep] at hm
        rw [hm] at hph
        cases hph
      · simp only [hm, Bool.false_eq_true, if_false]
        exact List.Forall₂.cons (fun _ => rfl) (ih _ _)

theorem runWave_stop (cfg : BucketCfg) (ph : item_pager_phase) (now d : Nat)
    (s : EPStats) (vb : VBucket) (rest : List VBucket)
    (hmem : d + memUsedList (vb :: rest) < cfg.mem_low_wat) :
    runWave cfg ph now d s (vb :: rest) = (vb :: rest, s) := by
  rw [runWave, if_pos hmem]

theorem runWave_cons_skip (cfg : BucketCfg) (ph : item_pager_phase) (now d : Nat)
    (s : EPStats) (vb : VBucket) (rest : List VBucket)
    (hmem : ¬ d + memUsedList (vb :: rest) < cfg.mem_low_wat)
    (hph : phaseMatches ph vb.state cfg.ephemeral = false) :
    runWave cfg ph now d s (vb :: rest) =
      (vb :: (runWave cfg ph now (d + vb.memUsed) s rest).1,
       (runWave cfg ph now (d + vb.memUsed) s rest).2) := by
  rw [runWave, if_neg hmem, hph]
  rfl

theorem runWave_single_skip (cfg : BucketCfg) (ph : item_pager_phase) (now d : Nat)
    (s : EPStats) (vb : VBucket)
    (hmem : ¬ d + memUsedList [vb] < cfg.mem_low_wat)
    (hph : phaseMatches ph vb.state cfg.ephemeral = false) :
    runWave cfg ph now d s [vb] = ([vb], s) := by
  rw [runWave, if_neg hmem, hph]
  rfl

theorem runWave_single_visit (cfg : BucketCfg) (ph : item_pager_phase) (now d : Nat)
    (s : EPStats) (vb : VBucket)
    (hmem : ¬ d + memUsedList [vb] < cfg.mem_low_wat)
    (hph : phaseMatches ph vb.state cfg.ephemeral = true) :
    runWave cfg ph now d s [vb] =
      ([(pagerVisitVB cfg ph now vb).1],
       s.addPagerCounts (pagerVisitVB cfg ph now vb).2.1 (pagerVisitVB cfg ph now vb).2.2) := by
  rw [runWave, if_neg hmem, hph]
  rfl

/-- If every item of the vBucket is an eviction candidate that the visitor
ejects, the pager visit of the vBucket ejects all n of them. -/
theorem pagerVisitVB_evict_all (cfg : BucketCfg) (ph : item_pager_phase)
    (st : vbucket_state) (n sz : Nat) (he : Option (Nat × Nat))
    (ho : visitStoredValue (pagerVcfg cfg ph 0 ⟨st, List.replicate n (evictableItem sz)⟩)
            st 0 (evictableItem sz)
          = ⟨ejectStoredValue cfg.ephemeral (evictableItem sz), true, false, he⟩) :
    pagerVisitVB cfg ph 0 ⟨st, List.replicate n (evictableItem sz)⟩ =
      (⟨st, List.replicate n (ejectStoredValue cfg.ephemeral (evictableItem sz))⟩, n, 0) := by
  have h := visitList_replicate
    (pagerVcfg cfg ph 0 ⟨st, List.replicate n (evictableItem sz)⟩) st 0 (evictableItem sz) n
  rw [ho] at h
  show (⟨⟨st, (visitList _ st 0 (List.replicate n (evictableItem sz))).items⟩,
        (visitList _ st 0 (List.replicate n (evictableItem sz))).numEjected,
        (visitList _ st 0 (List.replicate n (evictableItem sz))).numExpired⟩ :
        VBucket × Nat × Nat) = _
  rw [h.1, h.2.1, h.2.2]
  simp

/-- If the visitor skips every item of the vBucket, the pager visit is the
identity. -/
theorem pagerVisitVB_id (cfg : BucketCfg) (ph : item_pager_phase) (now : Nat)
    (vb : VBucket)
    (h : ∀ it ∈ vb.items,
        visitStoredValue (pagerVcfg cfg ph now vb) vb.state now it = skipOutcome it) :
    pagerVisitVB cfg ph now vb = (vb, 0, 0) := by
  show (⟨⟨vb.state, (visitList _ vb.state now vb.items).items⟩,
        (visitList _ vb.state now vb.items).numEjected,
        (visitList _ vb.state now vb.items).numExpired⟩ : VBucket × Nat × Nat) = _
  rw [visitList_skip_all h]

/-- A pager candidate in an active vBucket is eligible in the
ACTIVE_AND_PENDING_ONLY phase on every bucket type. -/
theorem eligible_evictable_AP (eph : Bool) (sz : Nat) :
    isEligibleForEviction eph .ACTIVE_AND_PENDING_ONLY .active (evictableItem sz) = true := by
  cases eph <;> rfl

/-- A pager candidate in an active vBucket is eligible in the
PAGING_UNREFERENCED phase on every bucket type. -/
theorem eligible_evictable_PU (eph : Bool) (sz : Nat) :
    isEligibleForEviction eph .PAGING_UNREFERENCED .active (evictableItem sz) = true := by
  cases eph <;> rfl

/-- A pager candidate in a replica vBucket is eligible in the REPLICA_ONLY
phase on a persistent bucket. -/
theorem eligible_evictable_RO (sz : Nat) :
    isEligibleForEviction false .REPLICA_ONLY .replica (evictableItem sz) = true := rfl

/-- Memory used by the ServerQuotaReached bucket: n items of 568 B each. -/
theorem quotaBucket_memUsed (n : Nat) : (quotaBucket n).memUsed = n * 568 := by
  show memUsedItems (List.replicate n (evictableItem 512)) + 0 = n * 568
  rw [memUsedItems_replicate]
  show n * 568 + 0 = n * 568
  omega

/-- A persistent hifi_mfu pager run over the quota bucket skips the replica
wave and ejects every candidate value in the active/pending wave. -/
theorem quotaPageOut_hifi_persistent (fnd : Bool) (n : Nat) (hhw : 163840 < n * 568) :
    itemPagerPageOut (quotaCfg .hifi_mfu false fnd) 0 (quotaBucket n) =
      ⟨[⟨.active, List.replicate n (ejectStoredValue false (evictableItem 512))⟩],
       EPStats.zero.addPagerCounts n 0⟩ := by
  have hmm : memUsedList [(⟨.active, List.replicate n (evictableItem 512)⟩ : VBucket)]
      = n * 568 := quotaBucket_memUsed n
  have hnm : ¬ 0 + memUsedList [(⟨.active, List.replicate n (evictableItem 512)⟩ : VBucket)]
      < (quotaCfg .hifi_mfu false fnd).mem_low_wat := by
    rw [hmm]
    show ¬ 0 + n * 568 < 122880
    omega
  have hv : pagerVisitVB (quotaCfg .hifi_mfu false fnd) .ACTIVE_AND_PENDING_ONLY 0
      ⟨.active, List.replicate n (evictableItem 512)⟩ =
      (⟨.active, List.replicate n (ejectStoredValue false (evictableItem 512))⟩, n, 0) :=
    pagerVisitVB_evict_all (quotaCfg .hifi_mfu false fnd) .ACTIVE_AND_PENDING_ONLY
      .active n 512 (some (0, 0))
      (visit_eject_hifi rfl rfl rfl rfl (eligible_evictable_AP false 512) rfl)
  have h1 : runWave (quotaCfg .hifi_mfu false fnd) .REPLICA_ONLY 0 0 EPStats.zero
      [⟨.active, List.replicate n (evictableItem 512)⟩] =
      ([⟨.active, List.replicate n (evictableItem 512)⟩], EPStats.zero) :=
    runWave_single_skip _ _ _ _ _ _ hnm rfl
  have h2 : runWave (quotaCfg .hifi_mfu false fnd) .ACTIVE_AND_PENDING_ONLY 0 0 EPStats.zero
      [⟨.active, List.replicate n (evictableItem 512)⟩] =
      ([⟨.active, List.replicate n (ejectStoredValue false (evictableItem 512))⟩],
       EPStats.zero.addPagerCounts n 0) := by
    rw [runWave_single_visit (quotaCfg .hifi_mfu false fnd) .ACTIVE_AND_PENDING_ONLY 0 0
      EPStats.zero ⟨.active, List.replicate n (evictableItem 512)⟩ hnm rfl, hv]
  have hseq : phaseSequence (quotaCfg .hifi_mfu false fnd).policy
      (quotaCfg .hifi_mfu false fnd).ephemeral
      = [.REPLICA_ONLY, .ACTIVE_AND_PENDING_ONLY] := rfl
  unfold itemPagerPageOut
  rw [hseq]
  simp only [List.foldl_cons, List.foldl_nil, quotaBucket, h1, h2]

/-- A persistent 2-bit LRU pager run over the quota bucket ejects every
candidate in the PAGING_UNREFERENCED wave and then stops below the low
watermark. -/
theorem quotaPageOut_lru_persistent (fnd : Bool) (n : Nat)
    (hhw : 163840 < n * 568) (hq : n * 568 ≤ 204800) :
    itemPagerPageOut (quotaCfg .lru2Bit false fnd) 0 (quotaBucket n) =
      ⟨[⟨.active, List.replicate n (ejectStoredValue false (evictableItem 512))⟩],
       EPStats.zero.addPagerCounts n 0⟩ := by
  have hmm : memUsedList [(⟨.active, List.replicate n (evictableItem 512)⟩ : VBucket)]
      = n * 568 := quotaBucket_memUsed n
  have hnm : ¬ 0 + memUsedList [(⟨.active, List.replicate n (evictableItem 512)⟩ : VBucket)]
      < (quotaCfg .lru2Bit false fnd).mem_low_wat := by
    rw [hmm]
    show ¬ 0 + n * 568 < 122880
    omega
  have hm56 : memUsedList
      [(⟨.active, List.replicate n (ejectStoredValue false (evictableItem 512))⟩ : VBucket)]
      = n * 56 := by
    show memUsedItems (List.replicate n (ejectStoredValue false (evictableItem 512))) + 0
        = n * 56
    rw [memUsedItems_replicate]
    show n * 56 + 0 = n * 56
    omega
  have hlo : 0 + memUsedList
      [(⟨.active, List.replicate n (ejectStoredValue false (evictableItem 512))⟩ : VBucket)]
      < (quotaCfg .lru2Bit false fnd).mem_low_wat := by
    rw [hm56]
    show 0 + n * 56 < 122880
    omega
  have hv : pagerVisitVB (quotaCfg .lru2Bit false fnd) .PAGING_UNREFERENCED 0
      ⟨.active, List.replicate n (evictableItem 512)⟩ =
      (⟨.active, List.replicate n (ejectStoredValue false (evictableItem 512))⟩, n, 0) :=
    pagerVisitVB_evict_all (quotaCfg .lru2Bit false fnd) .PAGING_UNREFERENCED
      .active n 512 none
      (visit_eject_lru rfl rfl rfl rfl (eligible_evictable_PU false 512) rfl)
  have h1 : runWave (quotaCfg .lru2Bit false fnd) .PAGING_UNREFERENCED 0 0 EPStats.zero
      [⟨.active, List.replicate n (evictableItem 512)⟩] =
      ([⟨.active, List.replicate n (ejectStoredValue false (evictableItem 512))⟩],
       EPStats.zero.addPagerCounts n 0) := by
    rw [runWave_single_visit (quotaCfg .lru2Bit false fnd) .PAGING_UNREFERENCED 0 0
      EPStats.zero ⟨.active, List.replicate n (evictableItem 512)⟩ hnm rfl, hv]
  have h2 : runWave (quotaCfg .lru2Bit false fnd) .REPLICA_ONLY 0 0
      (EPStats.zero.addPagerCounts n 0)
      [⟨.active, List.replicate n (ejectStoredValue false (evictableItem 512))⟩] =
      ([⟨.active, List.replicate n (ejectStoredValue false (evictableItem 512))⟩],
       EPStats.zero.addPagerCounts n 0) :=
    runWave_stop _ _ _ _ _ _ _ hlo
  have h3 : runWave (quotaCfg .lru2Bit false fnd) .ACTIVE_AND_PENDING_ONLY 0 0
      (EPStats.zero.addPagerCounts n 0)
      [⟨.active, List.replicate n (ejectStoredValue false (evictableItem 512))⟩] =
      ([⟨.active, List.replicate n (ejectStoredValue false (evictableItem 512))⟩],
       EPStats.zero.addPagerCounts n 0) :=
    runWave_stop _ _ _ _ _ _ _ hlo
  have hseq : phaseSequence (quotaCfg .lru2Bit false fnd).policy
      (quotaCfg .lru2Bit false fnd).ephemeral
      = [.PAGING_UNREFERENCED, .REPLICA_ONLY, .ACTIVE_AND_PENDING_ONLY] := rfl
  unfold itemPagerPageOut
  rw [hseq]
  simp only [List.foldl_cons, List.foldl_nil, quotaBucket, h1, h2, h3]

/-- An ephemeral pager run over the quota bucket deletes every candidate in
its single active/pending wave, whatever the eviction policy. -/
theorem quotaPageOut_ephemeral (policy : EvictionPolicy) (fnd : Bool) (n : Nat)
    (hhw : 163840 < n * 568) :
    itemPagerPageOut (quotaCfg policy true fnd) 0 (quotaBucket n) =
      ⟨[⟨.active, List.replicate n (ejectStoredValue true (evictableItem 512))⟩],
       EPStats.zero.addPagerCounts n 0⟩ := by
  have hmm : memUsedList [(⟨.active, List.replicate n (evictableItem 512)⟩ : VBucket)]
      = n * 568 := quotaBucket_memUsed n
  have hnm : ¬ 0 + memUsedList [(⟨.active, List.replicate n (evictableItem 512)⟩ : VBucket)]
      < (quotaCfg policy true fnd).mem_low_wat := by
    rw [hmm]
    show ¬ 0 + n * 568 < 122880
    omega
  have ho : visitStoredValue
      (pagerVcfg (quotaCfg policy true fnd) .ACTIVE_AND_PENDING_ONLY 0
        ⟨.active, List.replicate n (evictableItem 512)⟩) .active 0 (evictableItem 512)
      = ⟨ejectStoredValue (quotaCfg policy true fnd).ephemeral (evictableItem 512),
         true, false,
         if policy = .hifi_mfu then some (0, 0) else none⟩ := by
    cases policy
    · exact visit_eject_lru rfl rfl rfl rfl (eligible_evictable_AP true 512) rfl
    · exact visit_eject_hifi rfl rfl rfl rfl (eligible_evictable_AP true 512) rfl
  have hv : pagerVisitVB (quotaCfg policy true fnd) .ACTIVE_AND_PENDING_ONLY 0
      ⟨.active, List.replicate n (evictableItem 512)⟩ =
      (⟨.active, List.replicate n (ejectStoredValue true (evictableItem 512))⟩, n, 0) :=
    pagerVisitVB_evict_all (quotaCfg policy true fnd) .ACTIVE_AND_PENDING_ONLY
      .active n 512 (if policy = .hifi_mfu then some (0, 0) else none) ho
  have h1 : runWave (quotaCfg policy true fnd) .ACTIVE_AND_PENDING_ONLY 0 0 EPStats.zero
      [⟨.active, List.replicate n (evictableItem 512)⟩] =
      ([⟨.active, List.replicate n (ejectStoredValue true (evictableItem 512))⟩],
       EPStats.zero.addPagerCounts n 0) := by
    rw [runWave_single_visit (quotaCfg policy true fnd) .ACTIVE_AND_PENDING_ONLY 0 0
      EPStats.zero ⟨.active, List.replicate n (evictableItem 512)⟩ hnm rfl, hv]
  have hseq : phaseSequence (quotaCfg policy true fnd).policy
      (quotaCfg policy true fnd).ephemeral = [.ACTIVE_AND_PENDING_ONLY] := rfl
  unfold itemPagerPageOut
  rw [hseq]
  simp only [List.foldl_cons, List.foldl_nil, quotaBucket, h1]

/-- Visiting a vBucket holding a skipped population followed by an expiring
population expires exactly the expiring items. -/
theorem pagerVisitVB_mixed (cfg : BucketCfg) (ph : item_pager_phase)
    (st : vbucket_state) (itA itB itB' : Item) (a b : Nat)
    (hoA : visitStoredValue
        (pagerVcfg cfg ph 2 ⟨st, List.replicate a itA ++ List.replicate b itB⟩)
        st 2 itA = skipOutcome itA)
    (hoB : visitStoredValue
        (pagerVcfg cfg ph 2 ⟨st, List.replicate a itA ++ List.replicate b itB⟩)
        st 2 itB = ⟨itB', false, true, none⟩) :
    pagerVisitVB cfg ph 2 ⟨st, List.replicate a itA ++ List.replicate b itB⟩ =
      (⟨st, List.replicate a itA ++ List.replicate b itB'⟩, 0, b) := by
  have hA := visitList_replicate
    (pagerVcfg cfg ph 2 ⟨st, List.replicate a itA ++ List.replicate b itB⟩) st 2 itA a
  have hB := visitList_replicate
    (pagerVcfg cfg ph 2 ⟨st, List.replicate a itA ++ List.replicate b itB⟩) st 2 itB b
  rw [hoA] at hA
  rw [hoB] at hB
  have hAp := visitList_append
    (pagerVcfg cfg ph 2 ⟨st, List.replicate a itA ++ List.replicate b itB⟩) st 2
    (List.replicate a itA) (List.replicate b itB)
  show (⟨⟨st, (visitList _ st 2 (List.replicate a itA ++ List.replicate b itB)).items⟩,
        (visitList _ st 2 (List.replicate a itA ++ List.replicate b itB)).numEjected,
        (visitList _ st 2 (List.replicate a itA ++ List.replicate b itB)).numExpired⟩ :
        VBucket × Nat × Nat) = _
  rw [hAp.1, hAp.2.1, hAp.2.2, hA.1, hA.2.1, hA.2.2, hB.1, hB.2.1, hB.2.2]
  simp [skipOutcome]

/-- The expiry visit of a vBucket holding a skipped population followed by an
expiring population expires exactly the expiring items. -/
theorem expiryVisitVB_mixed (cfg : BucketCfg) (st : vbucket_state)
    (itA itB itB' : Item) (a b : Nat)
    (hoA : visitStoredValue (expiryVcfg cfg) st 2 itA = skipOutcome itA)
    (hoB : visitStoredValue (expiryVcfg cfg) st 2 itB = ⟨itB', false, true, none⟩) :
    expiryVisitVB cfg 2 ⟨st, List.replicate a itA ++ List.replicate b itB⟩ =
      (⟨st, List.replicate a itA ++ List.replicate b itB'⟩, b) := by
  have hA := visitList_replicate (expiryVcfg cfg) st 2 itA a
  have hB := visitList_replicate (expiryVcfg cfg) st 2 itB b
  rw [hoA] at hA
  rw [hoB] at hB
  have hAp := visitList_append (expiryVcfg cfg) st 2
    (List.replicate a itA) (List.replicate b itB)
  show (⟨⟨st, (visitList _ st 2 (List.replicate a itA ++ List.replicate b itB)).items⟩,
        (visitList _ st 2 (List.replicate a itA ++ List.replicate b itB)).numExpired⟩ :
        VBucket × Nat) = _
  rw [hAp.1, hAp.2.2, hA.1, hA.2.2, hB.1, hB.2.2]
  simp [skipOutcome]

/-- Memory used by the ExpiredItemsDeletedFirst bucket: 568 B per document. -/
theorem expiredFirstBucket_memUsed (a b : Nat) :
    (expiredFirstBucket a b).memUsed = a * 568 + b * 568 := by
  show memUsedItems
      (List.replicate a (plainItem 512) ++ List.replicate b (ttlItem 512 1)) + 0 = _
  rw [memUsedItems_append, memUsedItems_replicate, memUsedItems_replicate]
  show a * 568 + b * 568 + 0 = a * 568 + b * 568
  omega

/-- The expiry pager run over the quota bucket is the identity: none of the
stored documents carries a TTL. -/
theorem quotaExpiry_id (policy : EvictionPolicy) (eph fnd : Bool) (n : Nat) :
    expiryPagerRun (quotaCfg policy eph fnd) 0 (quotaBucket n) = quotaBucket n := by
  have hall : ∀ it ∈ List.replicate n (evictableItem 512),
      visitStoredValue (expiryVcfg (quotaCfg policy eph fnd)) .active 0 it
        = skipOutcome it := by
    intro it hit
    rw [List.eq_of_mem_replicate hit]
    exact visit_skip_expiry_pager rfl rfl rfl
  have hv : expiryVisitVB (quotaCfg policy eph fnd) 0
      ⟨.active, List.replicate n (evictableItem 512)⟩ =
      (⟨.active, List.replicate n (evictableItem 512)⟩, 0) := by
    show (⟨⟨.active,
        (visitList _ .active 0 (List.replicate n (evictableItem 512))).items⟩,
        (visitList _ .active 0 (List.replicate n (evictableItem 512))).numExpired⟩ :
        VBucket × Nat) = _
    rw [visitList_skip_all hall]
  unfold expiryPagerRun quotaBucket
  rw [expiryWave]
  have hnd : ¬ (⟨.active, List.replicate n (evictableItem 512)⟩ : VBucket).state = .dead :=
    fun h => nomatch h
  rw [if_neg hnd]
  simp only [hv, expiryWave, addPagerCounts_zero]

/-! ## Claim theorems -/

/-- C1: for every bucket whose full policy is not fail_new_data (persistent of
either eviction policy, or ephemeral auto_delete), after populating with pager
candidates past the high watermark and running the high-memory pager to
completion, the estimated bytes used fall strictly below mem_low_wat and
strictly fewer than n of the n stored items remain resident; for an ephemeral
fail_new_data bucket the run is the expiry pager, which removes nothing, so
bytes used remain above mem_low_wat and the item count still equals n. -/
theorem serverQuotaReached (policy : EvictionPolicy) (eph fnd : Bool) (n : Nat)
    (_hn : 1 ≤ n)
    (hhw : 160 * 1024 < (quotaBucket n).memUsed)
    (hq : (quotaBucket n).memUsed ≤ quotaMaxSize) :
    (¬ (eph = true ∧ fnd = true) →
        (runHighMemoryPager (quotaCfg policy eph fnd) 0 (quotaBucket n)).memUsed < 120 * 1024
        ∧ (runHighMemoryPager (quotaCfg policy eph fnd) 0 (quotaBucket n)).numResidentTotal < n)
    ∧ ((eph = true ∧ fnd = true) →
        120 * 1024 < (runHighMemoryPager (quotaCfg policy eph fnd) 0 (quotaBucket n)).memUsed
        ∧ (runHighMemoryPager (quotaCfg policy eph fnd) 0 (quotaBucket n)).numItemsTotal = n) := by
  have hhw' : 163840 < n * 568 := by rw [quotaBucket_memUsed] at hhw; exact hhw
  have hq' : n * 568 ≤ 204800 := by rw [quotaBucket_memUsed] at hq; exact hq
  have hgt : (quotaCfg policy eph fnd).mem_high_wat < (quotaBucket n).memUsed := by
    show 163840 < (quotaBucket n).memUsed
    rw [quotaBucket_memUsed]
    exact hhw'
  constructor
  · intro hef
    have heff : (eph && fnd) = false := by
      cases eph <;> cases fnd <;> simp_all
    have hneg : ¬ (((quotaCfg policy eph fnd).ephemeral
        && (quotaCfg policy eph fnd).failNewData) = true) := by
      show ¬ ((eph && fnd) = true)
      rw [heff]
      exact fun h => nomatch h
    have hdis : runHighMemoryPager (quotaCfg policy eph fnd) 0 (quotaBucket n)
        = itemPagerPageOut (quotaCfg policy eph fnd) 0 (quotaBucket n) := by
      unfold runHighMemoryPager itemPagerRun
      rw [if_neg hneg, if_pos hgt]
    rw [hdis]
    cases eph
    · cases policy
      · rw [quotaPageOut_lru_persistent fnd n hhw' hq']
        constructor
        · show memUsedItems
            (List.replicate n (ejectStoredValue false (evictableItem 512))) + 0 < 122880
          rw [memUsedItems_replicate]
          show n * 56 + 0 < 122880
          omega
        · show (List.replicate n (ejectStoredValue false (evictableItem 512))).countP
            (fun it => !it.deleted && it.resident) + 0 < n
          rw [countP_replicate]
          have hfalse : (!(ejectStoredValue false (evictableItem 512)).deleted
              && (ejectStoredValue false (evictableItem 512)).resident) = false := rfl
          rw [hfalse, if_neg Bool.false_ne_true]
          omega
      · rw [quotaPageOut_hifi_persistent fnd n hhw']
        constructor
        · show memUsedItems
            (List.replicate n (ejectStoredValue false (evictableItem 512))) + 0 < 122880
          rw [memUsedItems_replicate]
          show n * 56 + 0 < 122880
          omega
        · show (List.replicate n (ejectStoredValue false (evictableItem 512))).countP
            (fun it => !it.deleted && it.resident) + 0 < n
          rw [countP_replicate]
          have hfalse : (!(ejectStoredValue false (evictableItem 512)).deleted
              && (ejectStoredValue false (evictableItem 512)).resident) = false := rfl
          rw [hfalse, if_neg Bool.false_ne_true]
          omega
    · rw [quotaPageOut_ephemeral policy fnd n hhw']
      constructor
      · show memUsedItems
          (List.replicate n (ejectStoredValue true (evictableItem 512))) + 0 < 122880
        rw [memUsedItems_replicate]
        show n * 0 + 0 < 122880
        omega
      · show (List.replicate n (ejectStoredValue true (evictableItem 512))).countP
          (fun it => !it.deleted && it.resident) + 0 < n
        rw [countP_replicate]
        have hfalse : (!(ejectStoredValue true (evictableItem 512)).deleted
            && (ejectStoredValue true (evictableItem 512)).resident) = false := rfl
        rw [hfalse, if_neg Bool.false_ne_true]
        omega
  · rintro ⟨he, hf⟩
    subst he
    subst hf
    have hdis : runHighMemoryPager (quotaCfg policy true true) 0 (quotaBucket n)
        = expiryPagerRun (quotaCfg policy true true) 0 (quotaBucket n) := by
      unfold runHighMemoryPager
      have hpos : ((quotaCfg policy true true).ephemeral
          && (quotaCfg policy true true).failNewData) = true := rfl
      rw [if_pos hpos]
    rw [hdis, quotaExpiry_id]
    constructor
    · rw [quotaBucket_memUsed]
      omega
    · show (List.replicate n (evictableItem 512)).countP (fun it => !it.deleted) + 0 = n
      rw [countP_replicate]
      have htrue : (!(evictableItem 512).deleted) = true := rfl
      rw [if_pos htrue]
      omega

/-- Witness for C1: with 300 stored candidates (170400 B used, above the
160 KiB high watermark and within the 200 KiB quota), the pager brings a
persistent hifi_mfu bucket below the low watermark with fewer than 300
resident items, and the ephemeral fail_new_data variant stays above the low
watermark with all 300 items. -/
theorem serverQuotaReached_witness :
    ((¬ (false = true ∧ false = true) →
        (runHighMemoryPager (quotaCfg .hifi_mfu false false) 0 (quotaBucket 300)).memUsed
            < 120 * 1024
        ∧ (runHighMemoryPager (quotaCfg .hifi_mfu false false) 0
              (quotaBucket 300)).numResidentTotal < 300)
      ∧ ((false = true ∧ false = true) →
          120 * 1024 <
            (runHighMemoryPager (quotaCfg .hifi_mfu false false) 0 (quotaBucket 300)).memUsed
          ∧ (runHighMemoryPager (quotaCfg .hifi_mfu false false) 0
                (quotaBucket 300)).numItemsTotal = 300))
    ∧ ((¬ (true = true ∧ true = true) →
        (runHighMemoryPager (quotaCfg .hifi_mfu true true) 0 (quotaBucket 300)).memUsed
            < 120 * 1024
        ∧ (runHighMemoryPager (quotaCfg .hifi_mfu true true) 0
              (quotaBucket 300)).numResidentTotal < 300)
      ∧ ((true = true ∧ true = true) →
          120 * 1024 <
            (runHighMemoryPager (quotaCfg .hifi_mfu true true) 0 (quotaBucket 300)).memUsed
          ∧ (runHighMemoryPager (quotaCfg .hifi_mfu true true) 0
                (quotaBucket 300)).numItemsTotal = 300)) :=
  ⟨serverQuotaReached .hifi_mfu false false 300 (by decide)
      (by rw [quotaBucket_memUsed]; decide) (by rw [quotaBucket_memUsed]; decide),
   serverQuotaReached .hifi_mfu true true 300 (by decide)
      (by rw [quotaBucket_memUsed]; decide) (by rw [quotaBucket_memUsed]; decide)⟩

/-- C5: the expiry check of the visitor precedes the eviction check: any live
item whose exptime is non-zero and has elapsed is deleted (tombstoned) with
the expired-by-pager count incremented, whatever the policy or eligibility;
consequently, after the high-memory pager runs over a bucket holding a
non-expiring 2-bit-LRU documents and b TTL-expired pager candidates, every TTL
document is removed, every non-TTL document is intact, the live item count is
a, and the statistics show expired_pager = b with expired_access and
expired_compactor both zero. -/
theorem expiredItemsDeletedFirst (eph fnd : Bool) (a b : Nat)
    (hhw : 160 * 1024 < (expiredFirstBucket a b).memUsed) :
    (∀ (c : VisitorCfg) (st : vbucket_state) (now : Nat) (it : Item),
        it.deleted = false → it.exptime ≠ 0 → it.exptime ≤ now →
        visitStoredValue c st now it = ⟨expireStoredValue it, false, true, none⟩)
    ∧ (runHighMemoryPager (quotaCfg .lru2Bit eph fnd) 2 (expiredFirstBucket a b)).vbuckets
        = [⟨.active, List.replicate a (plainItem 512)
            ++ List.replicate b (expireStoredValue (ttlItem 512 1))⟩]
    ∧ (runHighMemoryPager (quotaCfg .lru2Bit eph fnd) 2
        (expiredFirstBucket a b)).numItemsTotal = a
    ∧ (runHighMemoryPager (quotaCfg .lru2Bit eph fnd) 2
        (expiredFirstBucket a b)).stats = ⟨b, 0, 0, 0⟩ := by
  have hmm : memUsedList [(⟨.active, List.replicate a (plainItem 512)
      ++ List.replicate b (ttlItem 512 1)⟩ : VBucket)] = a * 568 + b * 568 :=
    expiredFirstBucket_memUsed a b
  have hhw' : 163840 < a * 568 + b * 568 := by
    rw [expiredFirstBucket_memUsed] at hhw
    exact hhw
  have hrun : runHighMemoryPager (quotaCfg .lru2Bit eph fnd) 2 (expiredFirstBucket a b) =
      ⟨[⟨.active, List.replicate a (plainItem 512)
          ++ List.replicate b (expireStoredValue (ttlItem 512 1))⟩],
       EPStats.zero.addPagerCounts 0 b⟩ := by
    cases eph
    · have hnm : ¬ 0 + memUsedList [(⟨.active, List.replicate a (plainItem 512)
          ++ List.replicate b (ttlItem 512 1)⟩ : VBucket)]
          < (quotaCfg .lru2Bit false fnd).mem_low_wat := by
        rw [hmm]
        show ¬ 0 + (a * 568 + b * 568) < 122880
        omega
      have hv1 : pagerVisitVB (quotaCfg .lru2Bit false fnd) .PAGING_UNREFERENCED 2
          ⟨.active, List.replicate a (plainItem 512) ++ List.replicate b (ttlItem 512 1)⟩ =
          (⟨.active, List.replicate a (plainItem 512)
              ++ List.replicate b (expireStoredValue (ttlItem 512 1))⟩, 0, b) :=
        pagerVisitVB_mixed _ _ _ _ _ _ a b
          (visit_skip_lru_low_nru rfl rfl rfl (by decide)) (visit_expire rfl rfl)
      have h1 : runWave (quotaCfg .lru2Bit false fnd) .PAGING_UNREFERENCED 2 0 EPStats.zero
          [⟨.active, List.replicate a (plainItem 512) ++ List.replicate b (ttlItem 512 1)⟩] =
          ([⟨.active, List.replicate a (plainItem 512)
              ++ List.replicate b (expireStoredValue (ttlItem 512 1))⟩],
           EPStats.zero.addPagerCounts 0 b) := by
        rw [runWave_single_visit (quotaCfg .lru2Bit false fnd) .PAGING_UNREFERENCED 2 0
          EPStats.zero
          ⟨.active, List.replicate a (plainItem 512) ++ List.replicate b (ttlItem 512 1)⟩
          hnm rfl, hv1]
      have h2 : ∀ (d : Nat) (s : EPStats),
          runWave (quotaCfg .lru2Bit false fnd) .REPLICA_ONLY 2 d s
            [⟨.active, List.replicate a (plainItem 512)
              ++ List.replicate b (expireStoredValue (ttlItem 512 1))⟩] =
          ([⟨.active, List.replicate a (plainItem 512)
              ++ List.replicate b (expireStoredValue (ttlItem 512 1))⟩], s) :=
        runWave_skip_all (by
          intro vb hvb
          rw [List.mem_singleton] at hvb
          subst hvb
          exact Or.inl rfl)
      have hitems : ∀ it ∈ List.replicate a (plainItem 512)
          ++ List.replicate b (expireStoredValue (ttlItem 512 1)),
          visitStoredValue
            (pagerVcfg (quotaCfg .lru2Bit false fnd) .ACTIVE_AND_PENDING_ONLY 2
              ⟨.active, List.replicate a (plainItem 512)
                ++ List.replicate b (expireStoredValue (ttlItem 512 1))⟩)
            .active 2 it = skipOutcome it := by
        intro it hit
        rcases List.mem_append.mp hit with h | h
        · rw [List.eq_of_mem_replicate h]
          exact visit_skip_lru_low_nru rfl rfl rfl (by decide)
        · rw [List.eq_of_mem_replicate h]
          exact visit_deleted rfl
      have h3 : ∀ (d : Nat) (s : EPStats),
          runWave (quotaCfg .lru2Bit false fnd) .ACTIVE_AND_PENDING_ONLY 2 d s
            [⟨.active, List.replicate a (plainItem 512)
              ++ List.replicate b (expireStoredValue (ttlItem 512 1))⟩] =
          ([⟨.active, List.replicate a (plainItem 512)
              ++ List.replicate b (expireStoredValue (ttlItem 512 1))⟩], s) :=
        runWave_skip_all (by
          intro vb hvb
          rw [List.mem_singleton] at hvb
          subst hvb
          exact Or.inr (pagerVisitVB_id _ _ _ _ hitems))
      have hneg : ¬ (((quotaCfg .lru2Bit false fnd).ephemeral
          && (quotaCfg .lru2Bit false fnd).failNewData) = true) := by
        show ¬ ((false && fnd) = true)
        simp
      have hgt : (quotaCfg .lru2Bit false fnd).mem_high_wat
          < (expiredFirstBucket a b).memUsed := hhw
      have hseq : phaseSequence (quotaCfg .lru2Bit false fnd).policy
          (quotaCfg .lru2Bit false fnd).ephemeral
          = [.PAGING_UNREFERENCED, .REPLICA_ONLY, .ACTIVE_AND_PENDING_ONLY] := rfl
      unfold runHighMemoryPager itemPagerRun
      rw [if_neg hneg, if_pos hgt]
      unfold itemPagerPageOut
      rw [hseq]
      simp only [List.foldl_cons, List.foldl_nil, expiredFirstBucket, h1, h2, h3]
    · cases fnd
      · have hnm : ¬ 0 + memUsedList [(⟨.active, List.replicate a (plainItem 512)
            ++ List.replicate b (ttlItem 512 1)⟩ : VBucket)]
            < (quotaCfg .lru2Bit true false).mem_low_wat := by
          rw [hmm]
          show ¬ 0 + (a * 568 + b * 568) < 122880
          omega
        have hv1 : pagerVisitVB (quotaCfg .lru2Bit true false) .ACTIVE_AND_PENDING_ONLY 2
            ⟨.active, List.replicate a (plainItem 512) ++ List.replicate b (ttlItem 512 1)⟩ =
            (⟨.active, List.replicate a (plainItem 512)
                ++ List.replicate b (expireStoredValue (ttlItem 512 1))⟩, 0, b) :=
          pagerVisitVB_mixed _ _ _ _ _ _ a b
            (visit_skip_lru_low_nru rfl rfl rfl (by decide)) (visit_expire rfl rfl)
        have h1 : runWave (quotaCfg .lru2Bit true false) .ACTIVE_AND_PENDING_ONLY 2 0
            EPStats.zero
            [⟨.active, List.replicate a (plainItem 512) ++ List.replicate b (ttlItem 512 1)⟩] =
            ([⟨.active, List.replicate a (plainItem 512)
                ++ List.replicate b (expireStoredValue (ttlItem 512 1))⟩],
             EPStats.zero.addPagerCounts 0 b) := by
          rw [runWave_single_visit (quotaCfg .lru2Bit true false) .ACTIVE_AND_PENDING_ONLY 2 0
            EPStats.zero
            ⟨.active, List.replicate a (plainItem 512) ++ List.replicate b (ttlItem 512 1)⟩
            hnm rfl, hv1]
        have hneg : ¬ (((quotaCfg .lru2Bit true false).ephemeral
            && (quotaCfg .lru2Bit true false).failNewData) = true) := by
          show ¬ ((true && false) = true)
          simp
        have hgt : (quotaCfg .lru2Bit true false).mem_high_wat
            < (expiredFirstBucket a b).memUsed := hhw
        have hseq : phaseSequence (quotaCfg .lru2Bit true false).policy
            (quotaCfg .lru2Bit true false).ephemeral = [.ACTIVE_AND_PENDING_ONLY] := rfl
        unfold runHighMemoryPager itemPagerRun
        rw [if_neg hneg, if_pos hgt]
        unfold itemPagerPageOut
        rw [hseq]
        simp only [List.foldl_cons, List.foldl_nil, expiredFirstBucket, h1]
      · have hev : expiryVisitVB (quotaCfg .lru2Bit true true) 2
            ⟨.active, List.replicate a (plainItem 512) ++ List.replicate b (ttlItem 512 1)⟩ =
            (⟨.active, List.replicate a (plainItem 512)
                ++ List.replicate b (expireStoredValue (ttlItem 512 1))⟩, b) :=
          expiryVisitVB_mixed _ _ _ _ _ a b
            (visit_skip_expiry_pager rfl rfl rfl) (visit_expire rfl rfl)
        have hpos : ((quotaCfg .lru2Bit true true).ephemeral
            && (quotaCfg .lru2Bit true true).failNewData) = true := rfl
        have hnd : ¬ (⟨.active, List.replicate a (plainItem 512)
            ++ List.replicate b (ttlItem 512 1)⟩ : VBucket).state = .dead :=
          fun h => nomatch h
        unfold runHighMemoryPager
        rw [if_pos hpos]
        unfold expiryPagerRun expiredFirstBucket
        rw [expiryWave, if_neg hnd]
        simp only [hev, expiryWave]
  refine ⟨?_, ?_, ?_, ?_⟩
  · intro c st now it hd hne hle
    have hx : isExpired now it = true := by simp [isExpired, hne, hle]
    exact visit_expire hd hx
  · rw [hrun]
  · rw [hrun]
    show (List.replicate a (plainItem 512)
        ++ List.replicate b (expireStoredValue (ttlItem 512 1))).countP
        (fun it => !it.deleted) + 0 = a
    rw [List.countP_append, countP_replicate, countP_replicate]
    have h1 : (!(plainItem 512).deleted) = true := rfl
    have h2 : (!(expireStoredValue (ttlItem 512 1)).deleted) = false := rfl
    rw [h1, h2, if_pos rfl, if_neg Bool.false_ne_true]
    omega
  · rw [hrun]
    show EPStats.addPagerCounts EPStats.zero 0 b = ⟨b, 0, 0, 0⟩
    simp [EPStats.addPagerCounts, EPStats.zero]

/-- Witness for C5: 100 non-expiring documents plus 200 TTL-expired documents
exceed the high watermark; the general statement instantiated there. -/
theorem expiredItemsDeletedFirst_witness :
    (∀ (c : VisitorCfg) (st : vbucket_state) (now : Nat) (it : Item),
        it.deleted = false → it.exptime ≠ 0 → it.exptime ≤ now →
        visitStoredValue c st now it = ⟨expireStoredValue it, false, true, none⟩)
    ∧ (runHighMemoryPager (quotaCfg .lru2Bit false false) 2
        (expiredFirstBucket 100 200)).vbuckets
        = [⟨.active, List.replicate 100 (plainItem 512)
            ++ List.replicate 200 (expireStoredValue (ttlItem 512 1))⟩]
    ∧ (runHighMemoryPager (quotaCfg .lru2Bit false false) 2
        (expiredFirstBucket 100 200)).numItemsTotal = 100
    ∧ (runHighMemoryPager (quotaCfg .lru2Bit false false) 2
        (expiredFirstBucket 100 200)).stats = ⟨200, 0, 0, 0⟩ :=
  expiredItemsDeletedFirst false false 100 200
    (by rw [expiredFirstBucket_memUsed]; decide)

/-- Memory used by the ReplicaItemsVisitedFirst bucket. -/
theorem replicaFirstBucket_memUsed (m : Nat) :
    (replicaFirstBucket m).memUsed = 11360 + m * 568 := by
  show memUsedItems (List.replicate 10 (plainItem 512))
      + (memUsedItems (List.replicate 10 (plainItem 512))
        + (memUsedItems (List.replicate m (evictableItem 512)) + 0)) = _
  rw [memUsedItems_replicate (evictableItem 512) m]
  show 5680 + (5680 + (m * 568 + 0)) = 11360 + m * 568
  omega

/-- C6: for a persistent hifi_mfu bucket whose replica vBucket holds the
memory above the high watermark, one pager run visits the replica vBucket
first (REPLICA_ONLY wave) and, having fallen below the low watermark, never
touches the active and pending vBuckets: afterwards the replica's non-resident
count is m (non-zero) while the active and pending vBuckets are unchanged with
zero non-resident items. -/
theorem replicaItemsVisitedFirst (m : Nat) (_hm : 1 ≤ m)
    (hhw : 160 * 1024 < (replicaFirstBucket m).memUsed)
    (hq : (replicaFirstBucket m).memUsed ≤ quotaMaxSize) :
    ((itemPagerRun (quotaCfg .hifi_mfu false false) 0 (replicaFirstBucket m)).vbuckets.getD 2
        ⟨.dead, []⟩).getNumNonResidentItems = m
    ∧ 0 < ((itemPagerRun (quotaCfg .hifi_mfu false false) 0
        (replicaFirstBucket m)).vbuckets.getD 2 ⟨.dead, []⟩).getNumNonResidentItems
    ∧ ((itemPagerRun (quotaCfg .hifi_mfu false false) 0 (replicaFirstBucket m)).vbuckets.getD 0
          ⟨.dead, []⟩).getNumNonResidentItems
      + ((itemPagerRun (quotaCfg .hifi_mfu false false) 0 (replicaFirstBucket m)).vbuckets.getD 1
          ⟨.dead, []⟩).getNumNonResidentItems = 0
    ∧ (itemPagerRun (quotaCfg .hifi_mfu false false) 0 (replicaFirstBucket m)).vbuckets.getD 0
        ⟨.dead, []⟩ = ⟨.active, List.replicate 10 (plainItem 512)⟩
    ∧ (itemPagerRun (quotaCfg .hifi_mfu false false) 0 (replicaFirstBucket m)).vbuckets.getD 1
        ⟨.dead, []⟩ = ⟨.pending, List.replicate 10 (plainItem 512)⟩ := by
  have hhw' : 163840 < 11360 + m * 568 := by
    rw [replicaFirstBucket_memUsed] at hhw
    exact hhw
  have hq' : 11360 + m * 568 ≤ 204800 := by
    rw [replicaFirstBucket_memUsed] at hq
    exact hq
  have hmem1 : ¬ 0 + memUsedList
      [(⟨.active, List.replicate 10 (plainItem 512)⟩ : VBucket),
       ⟨.pending, List.replicate 10 (plainItem 512)⟩,
       ⟨.replica, List.replicate m (evictableItem 512)⟩]
      < (quotaCfg .hifi_mfu false false).mem_low_wat := by
    show ¬ 0 + (5680 + (5680 + (memUsedItems (List.replicate m (evictableItem 512)) + 0)))
        < 122880
    rw [memUsedItems_replicate]
    show ¬ 0 + (5680 + (5680 + (m * 568 + 0))) < 122880
    omega
  have hmem2 : ¬ (0 + (⟨.active, List.replicate 10 (plainItem 512)⟩ : VBucket).memUsed)
      + memUsedList
        [(⟨.pending, List.replicate 10 (plainItem 512)⟩ : VBucket),
         ⟨.replica, List.replicate m (evictableItem 512)⟩]
      < (quotaCfg .hifi_mfu false false).mem_low_wat := by
    show ¬ (0 + 5680) + (5680 + (memUsedItems (List.replicate m (evictableItem 512)) + 0))
        < 122880
    rw [memUsedItems_replicate]
    show ¬ (0 + 5680) + (5680 + (m * 568 + 0)) < 122880
    omega
  have hmem3 : ¬ ((0 + (⟨.active, List.replicate 10 (plainItem 512)⟩ : VBucket).memUsed)
      + (⟨.pending, List.replicate 10 (plainItem 512)⟩ : VBucket).memUsed)
      + memUsedList [(⟨.replica, List.replicate m (evictableItem 512)⟩ : VBucket)]
      < (quotaCfg .hifi_mfu false false).mem_low_wat := by
    show ¬ ((0 + 5680) + 5680)
        + (memUsedItems (List.replicate m (evictableItem 512)) + 0) < 122880
    rw [memUsedItems_replicate]
    show ¬ ((0 + 5680) + 5680) + (m * 568 + 0) < 122880
    omega
  have hv : pagerVisitVB (quotaCfg .hifi_mfu false false) .REPLICA_ONLY 0
      ⟨.replica, List.replicate m (evictableItem 512)⟩ =
      (⟨.replica, List.replicate m (ejectStoredValue false (evictableItem 512))⟩, m, 0) :=
    pagerVisitVB_evict_all (quotaCfg .hifi_mfu false false) .REPLICA_ONLY .replica m 512
      (some (0, 0)) (visit_eject_hifi rfl rfl rfl rfl (eligible_evictable_RO 512) rfl)
  have hw1 : runWave (quotaCfg .hifi_mfu false false) .REPLICA_ONLY 0 0 EPStats.zero
      [⟨.active, List.replicate 10 (plainItem 512)⟩,
       ⟨.pending, List.replicate 10 (plainItem 512)⟩,
       ⟨.replica, List.replicate m (evictableItem 512)⟩] =
      ([⟨.active, List.replicate 10 (plainItem 512)⟩,
        ⟨.pending, List.replicate 10 (plainItem 512)⟩,
        ⟨.replica, List.replicate m (ejectStoredValue false (evictableItem 512))⟩],
       EPStats.zero.addPagerCounts m 0) := by
    rw [runWave_cons_skip (quotaCfg .hifi_mfu false false) .REPLICA_ONLY 0 0 EPStats.zero
      ⟨.active, List.replicate 10 (plainItem 512)⟩
      [⟨.pending, List.replicate 10 (plainItem 512)⟩,
       ⟨.replica, List.replicate m (evictableItem 512)⟩] hmem1 rfl]
    rw [runWave_cons_skip (quotaCfg .hifi_mfu false false) .REPLICA_ONLY 0
      (0 + (⟨.active, List.replicate 10 (plainItem 512)⟩ : VBucket).memUsed) EPStats.zero
      ⟨.pending, List.replicate 10 (plainItem 512)⟩
      [⟨.replica, List.replicate m (evictableItem 512)⟩] hmem2 rfl]
    rw [runWave_single_visit (quotaCfg .hifi_mfu false false) .REPLICA_ONLY 0
      ((0 + (⟨.active, List.replicate 10 (plainItem 512)⟩ : VBucket).memUsed)
        + (⟨.pending, List.replicate 10 (plainItem 512)⟩ : VBucket).memUsed) EPStats.zero
      ⟨.replica, List.replicate m (evictableItem 512)⟩ hmem3 rfl]
    rw [hv]
  have hmem4 : 0 + memUsedList
      [(⟨.active, List.replicate 10 (plainItem 512)⟩ : VBucket),
       ⟨.pending, List.replicate 10 (plainItem 512)⟩,
       ⟨.replica, List.replicate m (ejectStoredValue false (evictableItem 512))⟩]
      < (quotaCfg .hifi_mfu false false).mem_low_wat := by
    show 0 + (5680 + (5680 + (memUsedItems
        (List.replicate m (ejectStoredValue false (evictableItem 512))) + 0))) < 122880
    rw [memUsedItems_replicate]
    show 0 + (5680 + (5680 + (m * 56 + 0))) < 122880
    omega
  have hw2 : runWave (quotaCfg .hifi_mfu false false) .ACTIVE_AND_PENDING_ONLY 0 0
      (EPStats.zero.addPagerCounts m 0)
      [⟨.active, List.replicate 10 (plainItem 512)⟩,
       ⟨.pending, List.replicate 10 (plainItem 512)⟩,
       ⟨.replica, List.replicate m (ejectStoredValue false (evictableItem 512))⟩] =
      ([⟨.active, List.replicate 10 (plainItem 512)⟩,
        ⟨.pending, List.replicate 10 (plainItem 512)⟩,
        ⟨.replica, List.replicate m (ejectStoredValue false (evictableItem 512))⟩],
       EPStats.zero.addPagerCounts m 0) :=
    runWave_stop _ _ _ _ _ _ _ hmem4
  have hgt : (quotaCfg .hifi_mfu false false).mem_high_wat < (replicaFirstBucket m).memUsed :=
    hhw
  have hseq : phaseSequence (quotaCfg .hifi_mfu false false).policy
      (quotaCfg .hifi_mfu false false).ephemeral
      = [.REPLICA_ONLY, .ACTIVE_AND_PENDING_ONLY] := rfl
  have hrun : itemPagerRun (quotaCfg .hifi_mfu false false) 0 (replicaFirstBucket m) =
      ⟨[⟨.active, List.replicate 10 (plainItem 512)⟩,
        ⟨.pending, List.replicate 10 (plainItem 512)⟩,
        ⟨.replica, List.replicate m (ejectStoredValue false (evictableItem 512))⟩],
       EPStats.zero.addPagerCounts m 0⟩ := by
    unfold itemPagerRun
    rw [if_pos hgt]
    unfold itemPagerPageOut
    rw [hseq]
    simp only [List.foldl_cons, List.foldl_nil, replicaFirstBucket, hw1, hw2]
  rw [hrun]
  refine ⟨?_, ?_, rfl, rfl, rfl⟩
  · show (List.replicate m (ejectStoredValue false (evictableItem 512))).countP
      (fun it => !it.deleted && !it.resident) = m
    rw [countP_replicate]
    have hcond : (!(ejectStoredValue false (evictableItem 512)).deleted
        && !(ejectStoredValue false (evictableItem 512)).resident) = true := rfl
    rw [hcond, if_pos rfl]
  · show 0 < (List.replicate m (ejectStoredValue false (evictableItem 512))).countP
      (fun it => !it.deleted && !it.resident)
    rw [countP_replicate]
    have hcond : (!(ejectStoredValue false (evictableItem 512)).deleted
        && !(ejectStoredValue false (evictableItem 512)).resident) = true := rfl
    rw [hcond, if_pos rfl]
    omega

/-- Witness for C6: with 280 pager candidates in the replica vBucket (170400 B
used in total), the replica wave pages all of them out and the active and
pending vBuckets stay fully resident. -/
theorem replicaItemsVisitedFirst_witness :
    ((itemPagerRun (quotaCfg .hifi_mfu false false) 0 (replicaFirstBucket 280)).vbuckets.getD 2
        ⟨.dead, []⟩).getNumNonResidentItems = 280
    ∧ 0 < ((itemPagerRun (quotaCfg .hifi_mfu false false) 0
        (replicaFirstBucket 280)).vbuckets.getD 2 ⟨.dead, []⟩).getNumNonResidentItems
    ∧ ((itemPagerRun (quotaCfg .hifi_mfu false false) 0
          (replicaFirstBucket 280)).vbuckets.getD 0 ⟨.dead, []⟩).getNumNonResidentItems
      + ((itemPagerRun (quotaCfg .hifi_mfu false false) 0
          (replicaFirstBucket 280)).vbuckets.getD 1 ⟨.dead, []⟩).getNumNonResidentItems = 0
    ∧ (itemPagerRun (quotaCfg .hifi_mfu false false) 0 (replicaFirstBucket 280)).vbuckets.getD 0
        ⟨.dead, []⟩ = ⟨.active, List.replicate 10 (plainItem 512)⟩
    ∧ (itemPagerRun (quotaCfg .hifi_mfu false false) 0 (replicaFirstBucket 280)).vbuckets.getD 1
        ⟨.dead, []⟩ = ⟨.pending, List.replicate 10 (plainItem 512)⟩ :=
  replicaItemsVisitedFirst 280 (by decide)
    (by rw [replicaFirstBucket_memUsed]; decide)
    (by rw [replicaFirstBucket_memUsed]; decide)

/-- C2: for every ephemeral bucket and every ItemPager run, every
replica-state vBucket is left completely unchanged by the run (in particular
its item count is unchanged): the run's phase filter never matches a replica
vBucket on an ephemeral bucket, whichever vBucket holds the memory. -/
theorem replicaNotPagedOnEphemeral (cfg : BucketCfg) (now : Nat) (b : Bucket)
    (heph : cfg.ephemeral = true) :
    List.Forall₂ (fun v w => v.state = .replica → w = v)
      b.vbuckets (itemPagerRun cfg now b).vbuckets := by
  unfold itemPagerRun
  by_cases hmem : cfg.mem_high_wat < b.memUsed
  · rw [if_pos hmem]
    unfold itemPagerPageOut
    have hseq : phaseSequence cfg.policy cfg.ephemeral = [.ACTIVE_AND_PENDING_ONLY] := by
      rw [phaseSequence.eq_def, heph]
      rfl
    rw [hseq]
    show List.Forall₂ _ b.vbuckets
      (runWave cfg .ACTIVE_AND_PENDING_ONLY now 0 b.stats b.vbuckets).1
    have hph : phaseMatches .ACTIVE_AND_PENDING_ONLY .replica cfg.ephemeral = false := rfl
    exact runWave_preserves_replica hph b.vbuckets 0 b.stats
  · rw [if_neg hmem]
    exact List.forall₂_same.mpr (fun x _ _ => rfl)

/-- Witness for C2: a concrete ephemeral auto_delete bucket whose replica
vBucket holds the memory above the high watermark is unchanged by the run. -/
theorem replicaNotPagedOnEphemeral_witness :
    List.Forall₂ (fun v w => v.state = .replica → w = v)
      (Bucket.vbuckets ⟨[⟨.active, List.replicate 2 (evictableItem 512)⟩,
                         ⟨.replica, List.replicate 300 (evictableItem 512)⟩], EPStats.zero⟩)
      (itemPagerRun (quotaCfg .hifi_mfu true false) 0
        ⟨[⟨.active, List.replicate 2 (evictableItem 512)⟩,
          ⟨.replica, List.replicate 300 (evictableItem 512)⟩], EPStats.zero⟩).vbuckets :=
  replicaNotPagedOnEphemeral (quotaCfg .hifi_mfu true false) 0
    ⟨[⟨.active, List.replicate 2 (evictableItem 512)⟩,
      ⟨.replica, List.replicate 300 (evictableItem 512)⟩], EPStats.zero⟩ rfl

/-- C3 counterexample: the claim says an ephemeral bucket re-initialises to
ACTIVE_AND_PENDING_ONLY for any algorithm, but after switching an ephemeral
bucket's policy to 2-bit LRU the next run re-initialises the phase to
PAGING_UNREFERENCED (as the phaseWhenPolicyChange test asserts for every
bucket type). -/
theorem phaseWhenPolicyChange_cx :
    ((ItemPager.create .hifi_mfu true).run (quotaCfg .lru2Bit true false) 0
        emptyBucket).1.phase = .PAGING_UNREFERENCED
    ∧ item_pager_phase.PAGING_UNREFERENCED ≠ item_pager_phase.ACTIVE_AND_PENDING_ONLY := by
  constructor
  · rfl
  · intro h; cases h

/-- C3 (amended): if the configured eviction algorithm changes between runs,
the next run re-initialises the pager phase to the starting value of the new
algorithm, with no state leaking from the previous algorithm:
PAGING_UNREFERENCED for 2-bit LRU on every bucket type, REPLICA_ONLY for
persistent hifi_mfu, and ACTIVE_AND_PENDING_ONLY for ephemeral hifi_mfu. -/
theorem phaseWhenPolicyChange (eph : Bool) (now : Nat) (b b' : Bucket) :
    (ItemPager.create .hifi_mfu eph).phase
        = (if eph then .ACTIVE_AND_PENDING_ONLY else .REPLICA_ONLY)
    ∧ ((ItemPager.create .hifi_mfu eph).run (quotaCfg .lru2Bit eph false) now b).1.phase
        = .PAGING_UNREFERENCED
    ∧ (((ItemPager.create .hifi_mfu eph).run (quotaCfg .lru2Bit eph false) now b).1.run
          (quotaCfg .hifi_mfu eph false) now b').1.phase
        = (if eph then .ACTIVE_AND_PENDING_ONLY else .REPLICA_ONLY) := by
  cases eph
  · exact ⟨rfl, rfl, rfl⟩
  · exact ⟨rfl, rfl, rfl⟩

/-- C4 counterexample: for the population with one entry at 0 and one at the
saturating maximum 255, thresholds at the 100th frequency percentile return
255 even though not every entry is at the maximum, refuting the claim as
stated ("never returns 255 unless every entry is at the maximum"). -/
theorem itemEvictionMaxThreshold_cx :
    (((ItemEviction.empty.addFreqAndAge 0 0).addFreqAndAge 255 0).getThresholds 100 0).1 = 255
    ∧ ¬ (∀ x ∈ ((ItemEviction.empty.addFreqAndAge 0 0).addFreqAndAge 255 0).freqHist,
          x = 255) := by
  constructor
  · decide
  · decide

/-- C4 (amended): the frequency threshold returned by getThresholds is always a
value of the inserted population, so it is 255 only when some entry is at 255;
in particular it is strictly below 255 whenever every entry is below 255, and
after a PagingVisitor pass over a vBucket containing one repeatedly-accessed
item the learned threshold at the 100th percentile is neither 255 nor the
initial frequency count. -/
theorem itemEvictionMaxThreshold :
    (∀ (ie : ItemEviction) (p q : Nat), ie.freqHist ≠ [] →
        (∀ x ∈ ie.freqHist, x < 255) → (ie.getThresholds p q).1 < 255)
    ∧ (isEligibleAfterVisit.itemEviction.getThresholds 100 0).1 ≠ 255
    ∧ (isEligibleAfterVisit.itemEviction.getThresholds 100 0).1
        ≠ ItemEviction.initialFreqCount := by
  refine ⟨?_, ?_, ?_⟩
  · intro ie p q hne hall
    exact hall _ (valueAtPercentile_mem hne p)
  · decide
  · decide

/-- Witness for C4: for the concrete population with entries 3 and 7 (all below
the saturating maximum), the frequency threshold is below 255. -/
theorem itemEvictionMaxThreshold_witness :
    (((ItemEviction.empty.addFreqAndAge 3 0).addFreqAndAge 7 0).getThresholds 100 0).1 < 255 :=
  itemEvictionMaxThreshold.1 ((ItemEviction.empty.addFreqAndAge 3 0).addFreqAndAge 7 0)
    100 0 (by decide) (by decide)

/-- C7 counterexample: a single eligible active document with frequency counter
at initialFreqCount is not yet ejected after initialFreqCount passes of the
visitor with a zero frequency threshold (the ejected count is still 0 after
every one of the first initialFreqCount passes), refuting "ejected after at
most initialFreqCount passes". -/
theorem decayByOne_cx :
    ItemEviction.initialFreqCount = 4
    ∧ (decayState 1).1.ejected = 0
    ∧ (decayState 2).1.ejected = 0
    ∧ (decayState 3).1.ejected = 0
    ∧ (decayState 4).1.ejected = 0 := by
  refine ⟨rfl, ?_, ?_, ?_, ?_⟩ <;> decide

/-- C7 (amended): running the visitor with a zero frequency threshold over a
single eligible active document with frequency initialFreqCount decrements the
frequency counter by exactly one per pass, so the ejected count is still 0
after any of the first initialFreqCount passes and becomes 1 on pass
initialFreqCount + 1. -/
theorem decayByOne :
    (∀ k, k ≤ ItemEviction.initialFreqCount →
        (decayState k).1.ejected = 0
        ∧ ((decayState k).2.headD decayItem).freq = ItemEviction.initialFreqCount - k)
    ∧ (decayState (ItemEviction.initialFreqCount + 1)).1.ejected = 1 := by
  constructor
  · intro k hk
    have hk4 : k ≤ 4 := hk
    interval_cases k <;> exact ⟨by decide, by decide⟩
  · decide

/-- Witness for C7: after two passes the document is not ejected and its
frequency counter has decayed by exactly two. -/
theorem decayByOne_witness :
    (decayState 2).1.ejected = 0
    ∧ ((decayState 2).2.headD decayItem).freq = ItemEviction.initialFreqCount - 2 :=
  decayByOne.1 2 (by decide)

/-- C8: an item that is not evictable is skipped silently without its frequency
counter being touched: in general the visit of any non-expired, non-deleted,
ineligible item is the identity, and concretely after initialFreqCount + 1
passes over a single ineligible document (replica vBucket, still dirty) the
document (and its frequency counter) is unchanged and nothing was ejected, and
the single further pass once the document is eligible, with a zero frequency
threshold, still ejects nothing while the histogram records the intact
initialFreqCount frequency. -/
theorem doNotDecayIfCannotEvict :
    (∀ (c : VisitorCfg) (st : vbucket_state) (now : Nat) (it : Item),
        it.deleted = false → isExpired now it = false →
        isEligibleForEviction c.ephemeral c.phase st it = false →
        visitStoredValue c st now it = skipOutcome it)
    ∧ (noDecayState (ItemEviction.initialFreqCount + 1)).2 = [hotPinnedItem]
    ∧ (noDecayState (ItemEviction.initialFreqCount + 1)).1.ejected = 0
    ∧ ((noDecayState (ItemEviction.initialFreqCount + 1)).2.headD decayItem).freq
        = ItemEviction.initialFreqCount
    ∧ noDecayAfterEligible.1.ejected = 0
    ∧ (noDecayAfterEligible.1.itemEviction.getThresholds 100 0).1
        = ItemEviction.initialFreqCount := by
  refine ⟨?_, ?_, ?_, ?_, ?_, ?_⟩
  · intro c st now it hd hx he
    exact visit_skip_of_ineligible hd hx he
  · decide
  · decide
  · decide
  · decide
  · decide

/-- Witness for C8: the ineligible (replica-visited, dirty) hot document is
returned untouched by a single visit. -/
theorem doNotDecayIfCannotEvict_witness :
    visitStoredValue mkTestVisitor.cfg .replica 0 hotPinnedItem = skipOutcome hotPinnedItem :=
  doNotDecayIfCannotEvict.1 mkTestVisitor.cfg .replica 0 hotPinnedItem
    (by decide) (by decide) (by decide)

/-- C9: with active compression, the compressed, evicted xattr document whose
TTL has elapsed is deleted by the expiry pager run: afterwards the vBucket has
zero items and zero non-resident items, expired_pager counts the deletion, and
the tombstone retains exactly the _sync system xattr while the user and meta
xattrs are pruned. -/
theorem expireCompressedEvictedXattr :
    mb32669After.vbuckets = [⟨.active, [expireStoredValue compressedXattrItem]⟩]
    ∧ (mb32669After.vbuckets.headD ⟨.dead, []⟩).getNumItems = 0
    ∧ (mb32669After.vbuckets.headD ⟨.dead, []⟩).getNumNonResidentItems = 0
    ∧ mb32669After.stats.expired_pager = 1
    ∧ (expireStoredValue compressedXattrItem).deleted = true
    ∧ (expireStoredValue compressedXattrItem).xattrs = [(syncKey, syncCasValue)]
    ∧ List.lookup userKey (expireStoredValue compressedXattrItem).xattrs = none
    ∧ List.lookup metaKey (expireStoredValue compressedXattrItem).xattrs = none := by
  refine ⟨rfl, rfl, rfl, rfl, rfl, ?_, ?_, ?_⟩ <;> decide

/-- C10: after the expiry pager has expired the xattr document with key 1 and
its metadata has been brought back into memory by getMetaData plus a
background fetch, a second expiry pager run leaves the bucket completely
unchanged (the run succeeds and the document stays deleted), and the tombstone
still carries exactly the _sync system xattr with user and meta absent. -/
theorem expireFetchedTombstoneAgain :
    mb25650AfterSecond = mb25650Refetched
    ∧ mb25650AfterSecond.findItem 1 = some (expireStoredValue (xattrDoc 1 10))
    ∧ (expireStoredValue (xattrDoc 1 10)).deleted = true
    ∧ (expireStoredValue (xattrDoc 1 10)).xattrs = [(syncKey, syncCasValue)]
    ∧ List.lookup userKey (expireStoredValue (xattrDoc 1 10)).xattrs = none
    ∧ List.lookup metaKey (expireStoredValue (xattrDoc 1 10)).xattrs = none
    ∧ (mb25650AfterSecond.vbuckets.headD ⟨.dead, []⟩).getNumItems = 2
    ∧ mb25650AfterSecond.stats.expired_pager = 1 := by
  refine ⟨?_, ?_, rfl, ?_, ?_, ?_, rfl, rfl⟩ <;> decide

end KV
